import Mathlib

set_option maxRecDepth 20000

/-!
Verification of the SolRoute routing library (Go) against its natural-language
specification.  The Go sources are shallowly embedded: Go `cosmath.Int` and
`big.Int` values become Lean `Int`/`Nat` (both are arbitrary-precision in Go;
`cosmath.Int` additionally panics past 2^256, which the theorems respect by
bounding their inputs), Go truncated division (`big.Int.Quo`, `cosmath.Int.Quo`)
becomes `Int.tdiv`, Go Euclidean division (`big.Int.Div`/`Mod`) becomes
`Int.ediv`/`Int.emod`, and fallible Go code returns `Except`.
Constants that live in repository files missing from the source snapshot are
modelled from the specification and marked `Modelled from the spec:`.
-/

namespace SolRoute

/-- Decidable equality for `Except`, used to evaluate embedded fallible
functions on concrete inputs. -/
instance {ε α : Type} [DecidableEq ε] [DecidableEq α] : DecidableEq (Except ε α) := fun a b =>
  match a, b with
  | .ok x, .ok y =>
    if h : x = y then isTrue (by simp [h]) else isFalse (by simp [h])
  | .error x, .error y =>
    if h : x = y then isTrue (by simp [h]) else isFalse (by simp [h])
  | .ok _, .error _ => isFalse (by simp)
  | .error _, .ok _ => isFalse (by simp)

/-- Two's-complement wrap of an arbitrary integer into the signed 64-bit range,
the behaviour of Go's `int64(...)` conversion and of `big.Int.Int64` (which
keeps the low word and the sign). -/
def wrapI64 (x : Int) : Int :=
  (x + 2 ^ 63) % 2 ^ 64 - 2 ^ 63

/-- Two's-complement wrap into the signed 32-bit range (Go `int32(...)`). -/
def wrapI32 (x : Int) : Int :=
  (x + 2 ^ 31) % 2 ^ 32 - 2 ^ 31

/-- Wrap into the unsigned 64-bit range (Go `uint64(...)` conversion). -/
def wrapU64 (x : Int) : Int :=
  x % 2 ^ 64

/-- Go's `big.Int.Int64` on a value that may not fit: the implementation keeps
the magnitude's low 64 bits and the sign, then reinterprets as `int64`. -/
def goInt64 (x : Int) : Int :=
  wrapI64 (if x < 0 then -(x.natAbs % 2 ^ 64 : Nat) else ((x.natAbs % 2 ^ 64 : Nat) : Int))

/- ### Constant-product quotes (AMM-v4, CPMM, PumpAMM) — claim C1

The Raydium fee constants `LIQUIDITY_FEES_NUMERATOR` / `LIQUIDITY_FEES_DENOMINATOR`
are referenced by `pkg/pool/raydium/ammPool.go` and `cpmmPool.go` but their
defining file is not part of the source snapshot. -/

/-- Modelled from the spec: `LIQUIDITY_FEES_NUMERATOR`, the 25 of the fixed
25-bps fee ("numerator 25, denominator 10000 = 25 bps"); its defining constants
file is missing from the snapshot. -/
def LIQUIDITY_FEES_NUMERATOR : Int := 25

/-- Modelled from the spec: `LIQUIDITY_FEES_DENOMINATOR`, the 10000 of the
fixed 25-bps fee; its defining constants file is missing from the snapshot. -/
def LIQUIDITY_FEES_DENOMINATOR : Int := 10000

/-- The pure tail of `AMMPool.Quote` (`pkg/pool/raydium/ammPool.go`, lines
377-393), after the vault balances have been fetched and the `(reserveIn,
reserveOut)` pair has been oriented for the swap direction.  `Quo` on
`cosmath.Int` is Go `big.Int.Quo`, i.e. truncated division. -/
def ammQuoteCore (reserveIn reserveOut inputAmount : Int) : Int :=
  if inputAmount = 0 then 0
  else
    let feeRaw := (inputAmount * LIQUIDITY_FEES_NUMERATOR).tdiv LIQUIDITY_FEES_DENOMINATOR
    let amountInWithFee := inputAmount - feeRaw
    let denominator := reserveIn + amountInWithFee
    (reserveOut * amountInWithFee).tdiv denominator

/-- The pure tail of `CPMMPool.Quote` (`pkg/pool/raydium/cpmmPool.go`, lines
249-265); textually the same computation as the AMM-v4 one. -/
def cpmmQuoteCore (reserveIn reserveOut inputAmount : Int) : Int :=
  if inputAmount = 0 then 0
  else
    let feeRaw := (inputAmount * LIQUIDITY_FEES_NUMERATOR).tdiv LIQUIDITY_FEES_DENOMINATOR
    let amountInWithFee := inputAmount - feeRaw
    let denominator := reserveIn + amountInWithFee
    (reserveOut * amountInWithFee).tdiv denominator

/-- Modelled from the spec: the PumpAMM decimal scale `BaseDecimalInt` (and the
`cosmath.Int` mirror `BaseDecimal`); its defining constants file is missing
from the snapshot.  The spec describes the fee as "1 − 0.00250 scaled by a
base-10 decimal"; the native-token scale 10^9 is used. -/
def BaseDecimalInt : Int := 1000000000

/-- The fee multiplier computed by `PumpAMMPool.Quote`
(`src/unnamed/part_004`, lines 372-373): `int64((1 - 0.00250) * float64(BaseDecimalInt))`.
In IEEE-754 double arithmetic `1 - 0.00250` rounds to exactly `0.9975` and
`0.9975 * 1e9` is exactly `997500000`, so the truncating conversion yields
`997500000`. -/
def pumpFeeMultiplier : Int := 997500000

/-- The pure tail of `PumpAMMPool.Quote` (`src/unnamed/part_004`, lines
372-392), after the two pool token-account balances have been fetched.
`inputIsBase` is the comparison `inputMint == pool.BaseMint.String()`. -/
def pumpQuoteCore (baseAmount quoteAmount inputAmount : Int) (inputIsBase : Bool) : Int :=
  let k := baseAmount * quoteAmount
  if inputIsBase then
    let newBase := baseAmount + (inputAmount * pumpFeeMultiplier).tdiv BaseDecimalInt
    let newQuote := k.tdiv newBase
    quoteAmount - newQuote
  else
    let newQuote := quoteAmount + (inputAmount * pumpFeeMultiplier).tdiv BaseDecimalInt
    let newBase := k.tdiv newQuote
    baseAmount - newBase

/-- The exact output formula asserted by the spec for the constant-product
adapters: `floor(reserve_out * (x - floor(x*25/10000)) / (reserve_in + (x - floor(x*25/10000))))`. -/
def specConstantProductOut (reserveIn reserveOut x : Int) : Int :=
  let netIn := x - (x * 25).fdiv 10000
  (reserveOut * netIn).fdiv (reserveIn + netIn)

/- ### CLMM ceiling mul-div helpers — claim C9 -/

/-- `mulDivCeil` (`pkg/pool/raydium/ammPool.go`, lines 1750-1760).  When the
denominator is zero the Go function returns the zero value `cosmath.Int{}`
(a nil big.Int) instead of aborting; that case is surfaced as `none`. -/
def mulDivCeil (a b denominator : Int) : Option Int :=
  if denominator = 0 then none
  else
    let numerator := a * b + (denominator - 1)
    some (numerator.tdiv denominator)

/-- `mulDivFloor` (`pkg/pool/raydium/ammPool.go`, lines 1833-1841); panics on a
zero denominator, surfaced as `none`. -/
def mulDivFloor (a b denominator : Int) : Option Int :=
  if denominator = 0 then none
  else some ((a * b).tdiv denominator)

/-- `mulDivRoundingUp` (`pkg/pool/raydium/ammPool.go`, lines 1942-1950).
`big.Int.Div`/`Mod` are Euclidean; the rounding step increments only when the
(always non-negative, for a positive denominator) remainder does *not* fit in
an `int64`, i.e. only when it is at least `2^63`. -/
def mulDivRoundingUp (a b denominator : Int) : Int :=
  let numerator := a * b
  let result := numerator.ediv denominator
  if ¬ (-(2 ^ 63) ≤ numerator.emod denominator ∧ numerator.emod denominator < 2 ^ 63) then
    result + 1
  else
    result

/- ### CLMM tick / sqrt-price conversions — claim C2 -/

/-- `MinTick` (`pkg/pool/raydium/ammPool.go`, line 1403). -/
def MinTick : Int := -443636

/-- `MaxTick` (`pkg/pool/raydium/ammPool.go`, line 1404). -/
def MaxTick : Int := 443636

/-- `MaxUint128Int` (`pkg/pool/raydium/ammPool.go`, lines 1408-1409). -/
def MaxUint128Int : Int := 2 ^ 128 - 1

/-- `mulRightShift` (`pkg/pool/raydium/ammPool.go`, lines 1412-1425): multiply
then divide by 2^64 (`cosmath.Quo`, truncated — the operands are never
negative on any call path). -/
def mulRightShift (val mulBy : Int) : Int :=
  (val * mulBy).tdiv (2 ^ 64)

/-- `getSqrtPriceX64FromTick` (`pkg/pool/raydium/ammPool.go`, lines 1428-1523):
the 19-step magic-constant recurrence over the bits of `|tick|`, inverted
through `(2^128 − 1) / ratio` for positive ticks. -/
def getSqrtPriceX64FromTick (tick : Int) : Except String Int :=
  if tick < MinTick ∨ tick > MaxTick then
    .error "tick must be in MIN_TICK and MAX_TICK"
  else
    let ta : Nat := tick.natAbs
    let ratio : Int :=
      if ta &&& 0x1 ≠ 0 then 18445821805675395072 else 18446744073709551616
    let ratio := if ta &&& 0x2 ≠ 0 then mulRightShift ratio 18444899583751176192 else ratio
    let ratio := if ta &&& 0x4 ≠ 0 then mulRightShift ratio 18443055278223355904 else ratio
    let ratio := if ta &&& 0x8 ≠ 0 then mulRightShift ratio 18439367220385607680 else ratio
    let ratio := if ta &&& 0x10 ≠ 0 then mulRightShift ratio 18431993317065453568 else ratio
    let ratio := if ta &&& 0x20 ≠ 0 then mulRightShift ratio 18417254355718170624 else ratio
    let ratio := if ta &&& 0x40 ≠ 0 then mulRightShift ratio 18387811781193609216 else ratio
    let ratio := if ta &&& 0x80 ≠ 0 then mulRightShift ratio 18329067761203558400 else ratio
    let ratio := if ta &&& 0x100 ≠ 0 then mulRightShift ratio 18212142134806163456 else ratio
    let ratio := if ta &&& 0x200 ≠ 0 then mulRightShift ratio 17980523815641700352 else ratio
    let ratio := if ta &&& 0x400 ≠ 0 then mulRightShift ratio 17526086738831433728 else ratio
    let ratio := if ta &&& 0x800 ≠ 0 then mulRightShift ratio 16651378430235570176 else ratio
    let ratio := if ta &&& 0x1000 ≠ 0 then mulRightShift ratio 15030750278694412288 else ratio
    let ratio := if ta &&& 0x2000 ≠ 0 then mulRightShift ratio 12247334978884435968 else ratio
    let ratio := if ta &&& 0x4000 ≠ 0 then mulRightShift ratio 8131365268886854656 else ratio
    let ratio := if ta &&& 0x8000 ≠ 0 then mulRightShift ratio 3584323654725218816 else ratio
    let ratio := if ta &&& 0x10000 ≠ 0 then mulRightShift ratio 696457651848324352 else ratio
    let ratio := if ta &&& 0x20000 ≠ 0 then mulRightShift ratio 26294789957507116 else ratio
    let ratio := if ta &&& 0x40000 ≠ 0 then mulRightShift ratio 37481735321082 else ratio
    let ratio := if tick > 0 then MaxUint128Int.tdiv ratio else ratio
    .ok ratio

/-- `MaxSqrtPriceX64` (`pkg/pool/raydium/ammPool.go`, line 1527).  Note that
this is *smaller* than `getSqrtPriceX64FromTick MaxTick`. -/
def MaxSqrtPriceX64 : Int := 79226673515401279992447579055

/-- `MinSqrtPriceX64` (`pkg/pool/raydium/ammPool.go`, line 1528). -/
def MinSqrtPriceX64 : Int := 4295048016

/-- `LogB2X32` (`pkg/pool/raydium/ammPool.go`, line 1530). -/
def LogB2X32 : Int := 59543866431248

/-- `LogBPErrMarginLowerX64` (`pkg/pool/raydium/ammPool.go`, line 1531). -/
def LogBPErrMarginLowerX64 : Int := 184467440737095516

/-- `LogBPErrMarginUpperX64` (`pkg/pool/raydium/ammPool.go`, line 1532). -/
def LogBPErrMarginUpperX64 : Int := 15793534762490258745

/-- Go's `big.Int.BitLen`, by structural recursion on a step budget that
covers every value below `2 ^ 256` (the domain of the embedded code). -/
def bitLenAux : Nat → Nat → Nat
  | 0, _ => 0
  | fuel + 1, n => if n = 0 then 0 else bitLenAux fuel (n / 2) + 1

/-- Go's `big.Int.BitLen`. -/
def bitLen (n : Nat) : Nat :=
  bitLenAux 256 n

/-- The fixed-precision fraction loop of `getTickFromSqrtPriceX64`
(`pkg/pool/raydium/ammPool.go`, lines 1571-1579): the loop condition is
`bit > 0 && precision < BitPrecision` with `BitPrecision = 14`; the remaining
precision budget is the recursion argument. -/
def log2FracLoop (bit r frac : Nat) : Nat → Nat
  | 0 => frac
  | steps + 1 =>
    if 0 < bit then
      let r2 := r * r
      let rMore := r2 >>> 127
      log2FracLoop (bit >>> 1) (r2 >>> (63 + rMore)) (frac + bit * rMore) steps
    else
      frac

/-- `signedLeftShift` (`pkg/pool/raydium/ammPool.go`, lines 1536-1541): shift
left then `And` with a 128-bit mask.  Go's `big.Int.And` uses two's-complement
semantics for negative operands, so the result is the shift reduced modulo
2^128 — a *non-negative* number even when the input is negative. -/
def signedLeftShift (n : Int) (shiftBy bitWidth : Nat) : Int :=
  (n * 2 ^ shiftBy).emod (2 ^ bitWidth)

/-- `signedRightShift` (`pkg/pool/raydium/ammPool.go`, lines 1544-1546): a
plain `big.Int.Rsh`, which floors; despite its name it performs no
two's-complement reinterpretation. -/
def signedRightShift (n : Int) (shiftBy : Nat) : Int :=
  n.fdiv (2 ^ shiftBy)

/-- `getTickFromSqrtPriceX64` (`pkg/pool/raydium/ammPool.go`, lines 1548-1605).
`msb` is `BitLen() - 1` (`Nat.size` is Go's `BitLen`); the final results go
through `big.Int.Int64`, modelled by `goInt64`. -/
def getTickFromSqrtPriceX64 (sqrtPriceX64 : Int) : Except String Int :=
  if sqrtPriceX64 > MaxSqrtPriceX64 ∨ sqrtPriceX64 < MinSqrtPriceX64 then
    .error "provided sqrtPrice is not within the supported sqrtPrice range"
  else
    let p : Nat := sqrtPriceX64.toNat
    let msb : Nat := bitLen p - 1
    let log2pIntegerX32 := signedLeftShift ((msb : Int) - 64) 32 128
    let r : Nat := if msb ≥ 64 then p >>> (msb - 63) else p <<< (63 - msb)
    let log2pFractionX64 := log2FracLoop 0x8000000000000000 r 0 14
    let log2pFractionX32 := log2pFractionX64 >>> 32
    let log2pX32 := log2pIntegerX32 + (log2pFractionX32 : Int)
    let logbpX64 := log2pX32 * LogB2X32
    let tickLow := signedRightShift (logbpX64 - LogBPErrMarginLowerX64) 64
    let tickHigh := signedRightShift (logbpX64 + LogBPErrMarginUpperX64) 64
    if tickLow = tickHigh then
      .ok (goInt64 tickLow)
    else
      match getSqrtPriceX64FromTick (goInt64 tickHigh) with
      | .error e => .error e
      | .ok derived =>
        if derived ≤ sqrtPriceX64 then .ok (goInt64 tickHigh)
        else .ok (goInt64 tickLow)

/- ### Router — claim C3 -/

/-- The pool id `SimpleRouter.GetBestPool` pins its selection to
(`src/unnamed/part_013`, line 88). -/
def hardcodedPoolId : String := "8sLbNZoA1cfnvMJLPfp98ZLAnFSYCFApfJKMbiXNLwxj"

/-- One entry of the router's result channel (`src/unnamed/part_013`, lines
45-49): the quoting pool's id, its output, and whether quoting failed. -/
structure QuoteResult where
  poolId : String
  outAmount : Int
  isErr : Bool
  deriving DecidableEq

/-- The collection loop of `SimpleRouter.GetBestPool` (`src/unnamed/part_013`,
lines 76-97).  The channel delivers one result per pool in a scheduler-chosen
order; the fold is over that order.  Errors are skipped; the max-output
comparison is commented out in the source, and a result is selected exactly
when its pool id equals `hardcodedPoolId`. -/
def getBestPool (results : List QuoteResult) : Except String (String × Int) :=
  let final := results.foldl
    (fun (acc : Option String × Int) r =>
      if r.isErr then acc
      else if r.poolId = hardcodedPoolId then (some r.poolId, r.outAmount)
      else acc)
    (none, 0)
  match final.1 with
  | none => .error "no route found"
  | some best => .ok (best, final.2)

/-- Modelled from the spec: the *documented* router behaviour ("invoke each
pool's quote in parallel, collect results, ignore errors, return the pool with
the maximum output; when no pool returns a valid quote, report no route
found"), stated for comparison with the source's `getBestPool`. -/
def specRouterBestPool (results : List QuoteResult) : Except String (String × Int) :=
  let final := results.foldl
    (fun (acc : Option (String × Int)) r =>
      if r.isErr then acc
      else
        match acc with
        | none => some (r.poolId, r.outAmount)
        | some best => if r.outAmount > best.2 then some (r.poolId, r.outAmount) else acc)
    none
  match final with
  | none => .error "no route found"
  | some best => .ok best

/-- C3: with two pools quoting successfully (outputs 5 and 7) and neither
carrying the pinned id, the source router reports "no route found" even though
valid quotes exist, while the documented behaviour returns the maximum; and
when the pinned pool is present the source router returns it even though the
other pool's output is larger. -/
theorem c3_router_pins_hardcoded_pool :
    getBestPool [⟨"poolA", 5, false⟩, ⟨"poolB", 7, false⟩] = .error "no route found" ∧
    specRouterBestPool [⟨"poolA", 5, false⟩, ⟨"poolB", 7, false⟩] = .ok ("poolB", 7) ∧
    getBestPool [⟨hardcodedPoolId, 1, false⟩, ⟨"poolB", 7, false⟩] =
      .ok (hardcodedPoolId, 1) ∧
    specRouterBestPool [⟨hardcodedPoolId, 1, false⟩, ⟨"poolB", 7, false⟩] =
      .ok ("poolB", 7) := by
  exact ⟨by decide, by decide, by decide, by decide⟩

/- ### Byte-level decoding — claim C5 -/

/-- A byte sequence (each entry < 256). -/
abbrev Bytes := List Nat

/-- How an embedded Go decoder can fail: a graceful `error` return value, or a
runtime index/slice-out-of-range panic. -/
inductive GoFailure
  | decodeErr (msg : String)
  | panicOOB
  deriving DecidableEq

/-- Go `data[off]`: panics when the index is out of range. -/
def readByte (data : Bytes) (off : Nat) : Except GoFailure Nat :=
  if h : off < data.length then .ok (data.get ⟨off, h⟩) else .error .panicOOB

/-- Go `binary.LittleEndian.UintNN(data[off : off+n])` (and
`uint128.FromBytes`, `solana.PublicKeyFromBytes`): slicing panics when
`off+n` exceeds the length; otherwise the `n` bytes are read little-endian. -/
def readLE (data : Bytes) (off n : Nat) : Except GoFailure Nat :=
  if off + n ≤ data.length then
    .ok (((data.drop off).take n).foldr (fun b acc => b + 256 * acc) 0)
  else .error .panicOOB

/-- Read a little-endian `uint32` reinterpreted as Go `int32`. -/
def readI32 (data : Bytes) (off : Nat) : Except GoFailure Int :=
  (readLE data off 4).map (fun v => wrapI32 v)

/-- Read a little-endian `uint64` reinterpreted as Go `int64`. -/
def readI64 (data : Bytes) (off : Nat) : Except GoFailure Int :=
  (readLE data off 8).map (fun v => wrapI64 v)

/-- The on-chain fields of `AMMPool` (`pkg/pool/raydium/ammPool.go`, lines
25-84) that `Decode` parses; public keys and `uint128`s are carried as the
little-endian value of their bytes. -/
structure AMMPoolState where
  Status : Nat
  Nonce : Nat
  MaxOrder : Nat
  Depth : Nat
  BaseDecimal : Nat
  QuoteDecimal : Nat
  State : Nat
  ResetFlag : Nat
  MinSize : Nat
  VolMaxCutRatio : Nat
  AmountWaveRatio : Nat
  BaseLotSize : Nat
  QuoteLotSize : Nat
  MinPriceMultiplier : Nat
  MaxPriceMultiplier : Nat
  SystemDecimalValue : Nat
  MinSeparateNumerator : Nat
  MinSeparateDenominator : Nat
  TradeFeeNumerator : Nat
  TradeFeeDenominator : Nat
  PnlNumerator : Nat
  PnlDenominator : Nat
  SwapFeeNumerator : Nat
  SwapFeeDenominator : Nat
  BaseNeedTakePnl : Nat
  QuoteNeedTakePnl : Nat
  QuoteTotalPnl : Nat
  BaseTotalPnl : Nat
  PoolOpenTime : Nat
  PunishPcAmount : Nat
  PunishCoinAmount : Nat
  OrderbookToInitTime : Nat
  SwapBaseInAmount : Nat
  SwapQuoteOutAmount : Nat
  SwapBase2QuoteFee : Nat
  SwapQuoteInAmount : Nat
  SwapBaseOutAmount : Nat
  SwapQuote2BaseFee : Nat
  BaseVault : Nat
  QuoteVault : Nat
  BaseMint : Nat
  QuoteMint : Nat
  LpMint : Nat
  OpenOrders : Nat
  MarketId : Nat
  MarketProgramId : Nat
  TargetOrders : Nat
  WithdrawQueue : Nat
  LpVault : Nat
  Owner : Nat
  LpReserve : Nat
  Padding : List Nat
  deriving DecidableEq

/-- `AMMPool.Decode` (`pkg/pool/raydium/ammPool.go`, lines 131-254): checks
the 752-byte minimum first and then parses sequentially, so on a short input
it returns a graceful error before any read. -/
def ammDecode (data : Bytes) : Except GoFailure AMMPoolState :=
  if data.length < 752 then
    .error (.decodeErr ("data too short: expected 752 bytes, got " ++ toString data.length))
  else do
    let Status ← readLE data 0 8
    let Nonce ← readLE data 8 8
    let MaxOrder ← readLE data 16 8
    let Depth ← readLE data 24 8
    let BaseDecimal ← readLE data 32 8
    let QuoteDecimal ← readLE data 40 8
    let State ← readLE data 48 8
    let ResetFlag ← readLE data 56 8
    let MinSize ← readLE data 64 8
    let VolMaxCutRatio ← readLE data 72 8
    let AmountWaveRatio ← readLE data 80 8
    let BaseLotSize ← readLE data 88 8
    let QuoteLotSize ← readLE data 96 8
    let MinPriceMultiplier ← readLE data 104 8
    let MaxPriceMultiplier ← readLE data 112 8
    let SystemDecimalValue ← readLE data 120 8
    let MinSeparateNumerator ← readLE data 128 8
    let MinSeparateDenominator ← readLE data 136 8
    let TradeFeeNumerator ← readLE data 144 8
    let TradeFeeDenominator ← readLE data 152 8
    let PnlNumerator ← readLE data 160 8
    let PnlDenominator ← readLE data 168 8
    let SwapFeeNumerator ← readLE data 176 8
    let SwapFeeDenominator ← readLE data 184 8
    let BaseNeedTakePnl ← readLE data 192 8
    let QuoteNeedTakePnl ← readLE data 200 8
    let QuoteTotalPnl ← readLE data 208 8
    let BaseTotalPnl ← readLE data 216 8
    let PoolOpenTime ← readLE data 224 8
    let PunishPcAmount ← readLE data 232 8
    let PunishCoinAmount ← readLE data 240 8
    let OrderbookToInitTime ← readLE data 248 8
    let SwapBaseInAmount ← readLE data 256 16
    let SwapQuoteOutAmount ← readLE data 272 16
    let SwapBase2QuoteFee ← readLE data 288 8
    let SwapQuoteInAmount ← readLE data 296 16
    let SwapBaseOutAmount ← readLE data 312 16
    let SwapQuote2BaseFee ← readLE data 328 8
    let BaseVault ← readLE data 336 32
    let QuoteVault ← readLE data 368 32
    let BaseMint ← readLE data 400 32
    let QuoteMint ← readLE data 432 32
    let LpMint ← readLE data 464 32
    let OpenOrders ← readLE data 496 32
    let MarketId ← readLE data 528 32
    let MarketProgramId ← readLE data 560 32
    let TargetOrders ← readLE data 592 32
    let WithdrawQueue ← readLE data 624 32
    let LpVault ← readLE data 656 32
    let Owner ← readLE data 688 32
    let LpReserve ← readLE data 720 8
    let pad0 ← readLE data 728 8
    let pad1 ← readLE data 736 8
    let pad2 ← readLE data 744 8
    .ok {
      Status := Status, Nonce := Nonce, MaxOrder := MaxOrder, Depth := Depth,
      BaseDecimal := BaseDecimal, QuoteDecimal := QuoteDecimal, State := State,
      ResetFlag := ResetFlag, MinSize := MinSize, VolMaxCutRatio := VolMaxCutRatio,
      AmountWaveRatio := AmountWaveRatio, BaseLotSize := BaseLotSize,
      QuoteLotSize := QuoteLotSize, MinPriceMultiplier := MinPriceMultiplier,
      MaxPriceMultiplier := MaxPriceMultiplier, SystemDecimalValue := SystemDecimalValue,
      MinSeparateNumerator := MinSeparateNumerator,
      MinSeparateDenominator := MinSeparateDenominator, TradeFeeNumerator := TradeFeeNumerator,
      TradeFeeDenominator := TradeFeeDenominator, PnlNumerator := PnlNumerator,
      PnlDenominator := PnlDenominator, SwapFeeNumerator := SwapFeeNumerator,
      SwapFeeDenominator := SwapFeeDenominator, BaseNeedTakePnl := BaseNeedTakePnl,
      QuoteNeedTakePnl := QuoteNeedTakePnl, QuoteTotalPnl := QuoteTotalPnl,
      BaseTotalPnl := BaseTotalPnl, PoolOpenTime := PoolOpenTime,
      PunishPcAmount := PunishPcAmount, PunishCoinAmount := PunishCoinAmount,
      OrderbookToInitTime := OrderbookToInitTime, SwapBaseInAmount := SwapBaseInAmount,
      SwapQuoteOutAmount := SwapQuoteOutAmount, SwapBase2QuoteFee := SwapBase2QuoteFee,
      SwapQuoteInAmount := SwapQuoteInAmount, SwapBaseOutAmount := SwapBaseOutAmount,
      SwapQuote2BaseFee := SwapQuote2BaseFee, BaseVault := BaseVault, QuoteVault := QuoteVault,
      BaseMint := BaseMint, QuoteMint := QuoteMint, LpMint := LpMint, OpenOrders := OpenOrders,
      MarketId := MarketId, MarketProgramId := MarketProgramId, TargetOrders := TargetOrders,
      WithdrawQueue := WithdrawQueue, LpVault := LpVault, Owner := Owner,
      LpReserve := LpReserve, Padding := [pad0, pad1, pad2] }

/-- One `RewardInfo` block of the CLMM pool state (`src/unnamed/part_001`,
lines 77-89). -/
structure RewardInfo where
  RewardState : Nat
  OpenTime : Nat
  EndTime : Nat
  LastUpdateTime : Nat
  EmissionsPerSecondX64 : Nat
  RewardTotalEmissioned : Nat
  RewardClaimed : Nat
  TokenMint : Nat
  TokenVault : Nat
  Authority : Nat
  RewardGrowthGlobalX64 : Nat
  deriving DecidableEq

/-- One iteration of the reward-state loop of `CLMMPool.Decode`
(`src/unnamed/part_001`, lines 188-221); reads 169 bytes from `off`. -/
def clmmReadRewardInfo (data : Bytes) (off : Nat) : Except GoFailure RewardInfo := do
  let RewardState ← readByte data (off + 0)
  let OpenTime ← readLE data (off + 1) 8
  let EndTime ← readLE data (off + 9) 8
  let LastUpdateTime ← readLE data (off + 17) 8
  let EmissionsPerSecondX64 ← readLE data (off + 25) 16
  let RewardTotalEmissioned ← readLE data (off + 41) 8
  let RewardClaimed ← readLE data (off + 49) 8
  let TokenMint ← readLE data (off + 57) 32
  let TokenVault ← readLE data (off + 89) 32
  let Authority ← readLE data (off + 121) 32
  let RewardGrowthGlobalX64 ← readLE data (off + 153) 16
  .ok {
    RewardState := RewardState, OpenTime := OpenTime, EndTime := EndTime,
    LastUpdateTime := LastUpdateTime, EmissionsPerSecondX64 := EmissionsPerSecondX64,
    RewardTotalEmissioned := RewardTotalEmissioned, RewardClaimed := RewardClaimed,
    TokenMint := TokenMint, TokenVault := TokenVault, Authority := Authority,
    RewardGrowthGlobalX64 := RewardGrowthGlobalX64 }

/-- The fields of `CLMMPool` (`src/unnamed/part_001`, lines 22-75) that
`Decode` parses; the runtime attachments (`PoolId`, `FeeRate`, the extension
bitmap, the tick-array cache) are separate parameters of `swapCompute`'s
embedding below. -/
structure CLMMPoolState where
  Bump : Nat
  AmmConfig : Nat
  Owner : Nat
  TokenMint0 : Nat
  TokenMint1 : Nat
  TokenVault0 : Nat
  TokenVault1 : Nat
  ObservationKey : Nat
  MintDecimals0 : Nat
  MintDecimals1 : Nat
  TickSpacing : Nat
  Liquidity : Nat
  SqrtPriceX64 : Nat
  TickCurrent : Int
  ObservationIndex : Nat
  ObservationUpdateDuration : Nat
  FeeGrowthGlobal0X64 : Nat
  FeeGrowthGlobal1X64 : Nat
  ProtocolFeesToken0 : Nat
  ProtocolFeesToken1 : Nat
  SwapInAmountToken0 : Nat
  SwapOutAmountToken1 : Nat
  SwapInAmountToken1 : Nat
  SwapOutAmountToken0 : Nat
  Status : Nat
  RewardInfos : List RewardInfo
  TickArrayBitmap : List Nat
  TotalFeesToken0 : Nat
  TotalFeesClaimedToken0 : Nat
  TotalFeesToken1 : Nat
  TotalFeesClaimedToken1 : Nat
  FundFeesToken0 : Nat
  FundFeesToken1 : Nat
  OpenTime : Nat
  RecentEpoch : Nat
  deriving DecidableEq

/-- `CLMMPool.Decode` (`src/unnamed/part_001`, lines 99-261): skips the
8-byte discriminator when the input is longer than 8 bytes and then reads
every field with *no* minimum-length check, so a short input hits an
out-of-range slice (a Go panic) instead of a decode error. -/
def clmmDecode (rawData : Bytes) : Except GoFailure CLMMPoolState := do
  let data := if rawData.length > 8 then rawData.drop 8 else rawData
  let Bump ← readByte data 0
  let AmmConfig ← readLE data 1 32
  let Owner ← readLE data 33 32
  let TokenMint0 ← readLE data 65 32
  let TokenMint1 ← readLE data 97 32
  let TokenVault0 ← readLE data 129 32
  let TokenVault1 ← readLE data 161 32
  let ObservationKey ← readLE data 193 32
  let MintDecimals0 ← readByte data 225
  let MintDecimals1 ← readByte data 226
  let TickSpacing ← readLE data 227 2
  let Liquidity ← readLE data 229 16
  let SqrtPriceX64 ← readLE data 245 16
  let TickCurrent ← readI32 data 261
  let ObservationIndex ← readLE data 265 2
  let ObservationUpdateDuration ← readLE data 267 2
  let FeeGrowthGlobal0X64 ← readLE data 269 16
  let FeeGrowthGlobal1X64 ← readLE data 285 16
  let ProtocolFeesToken0 ← readLE data 301 8
  let ProtocolFeesToken1 ← readLE data 309 8
  let SwapInAmountToken0 ← readLE data 317 16
  let SwapOutAmountToken1 ← readLE data 333 16
  let SwapInAmountToken1 ← readLE data 349 16
  let SwapOutAmountToken0 ← readLE data 365 16
  let Status ← readByte data 381
  let reward0 ← clmmReadRewardInfo data 389
  let reward1 ← clmmReadRewardInfo data 558
  let reward2 ← clmmReadRewardInfo data 727
  let bitmap0 ← readLE data 896 8
  let bitmap1 ← readLE data 904 8
  let bitmap2 ← readLE data 912 8
  let bitmap3 ← readLE data 920 8
  let bitmap4 ← readLE data 928 8
  let bitmap5 ← readLE data 936 8
  let bitmap6 ← readLE data 944 8
  let bitmap7 ← readLE data 952 8
  let bitmap8 ← readLE data 960 8
  let bitmap9 ← readLE data 968 8
  let bitmap10 ← readLE data 976 8
  let bitmap11 ← readLE data 984 8
  let bitmap12 ← readLE data 992 8
  let bitmap13 ← readLE data 1000 8
  let bitmap14 ← readLE data 1008 8
  let bitmap15 ← readLE data 1016 8
  let TotalFeesToken0 ← readLE data 1024 8
  let TotalFeesClaimedToken0 ← readLE data 1032 8
  let TotalFeesToken1 ← readLE data 1040 8
  let TotalFeesClaimedToken1 ← readLE data 1048 8
  let FundFeesToken0 ← readLE data 1056 8
  let FundFeesToken1 ← readLE data 1064 8
  let OpenTime ← readLE data 1072 8
  let RecentEpoch ← readLE data 1080 8
  .ok {
    Bump := Bump, AmmConfig := AmmConfig, Owner := Owner, TokenMint0 := TokenMint0,
    TokenMint1 := TokenMint1, TokenVault0 := TokenVault0, TokenVault1 := TokenVault1,
    ObservationKey := ObservationKey, MintDecimals0 := MintDecimals0,
    MintDecimals1 := MintDecimals1, TickSpacing := TickSpacing, Liquidity := Liquidity,
    SqrtPriceX64 := SqrtPriceX64, TickCurrent := TickCurrent,
    ObservationIndex := ObservationIndex,
    ObservationUpdateDuration := ObservationUpdateDuration,
    FeeGrowthGlobal0X64 := FeeGrowthGlobal0X64, FeeGrowthGlobal1X64 := FeeGrowthGlobal1X64,
    ProtocolFeesToken0 := ProtocolFeesToken0, ProtocolFeesToken1 := ProtocolFeesToken1,
    SwapInAmountToken0 := SwapInAmountToken0, SwapOutAmountToken1 := SwapOutAmountToken1,
    SwapInAmountToken1 := SwapInAmountToken1, SwapOutAmountToken0 := SwapOutAmountToken0,
    Status := Status, RewardInfos := [reward0, reward1, reward2],
    TickArrayBitmap := [bitmap0, bitmap1, bitmap2, bitmap3, bitmap4, bitmap5, bitmap6, bitmap7, bitmap8, bitmap9, bitmap10, bitmap11, bitmap12, bitmap13, bitmap14, bitmap15],
    TotalFeesToken0 := TotalFeesToken0, TotalFeesClaimedToken0 := TotalFeesClaimedToken0,
    TotalFeesToken1 := TotalFeesToken1, TotalFeesClaimedToken1 := TotalFeesClaimedToken1,
    FundFeesToken0 := FundFeesToken0, FundFeesToken1 := FundFeesToken1, OpenTime := OpenTime,
    RecentEpoch := RecentEpoch }

/-- The static-parameters block of `MeteoraDlmmPool`
(`pkg/pool/meteora/bin_array.go`, lines 201-213). -/
structure DlmmStaticParameters where
  baseFactor : Nat
  filterPeriod : Nat
  decayPeriod : Nat
  reductionFactor : Nat
  variableFeeControl : Nat
  maxVolatilityAccumulator : Nat
  minBinId : Int
  maxBinId : Int
  protocolShare : Nat
  baseFeePowerFactor : Nat
  deriving DecidableEq

/-- The volatile-parameters block of `MeteoraDlmmPool`
(`pkg/pool/meteora/bin_array.go`, lines 214-221). -/
structure DlmmVParameters where
  volatilityAccumulator : Nat
  volatilityReference : Nat
  indexReference : Int
  lastUpdateTimestamp : Int
  deriving DecidableEq

/-- One reward-info block of `MeteoraDlmmPool`
(`pkg/pool/meteora/bin_array.go`, lines 241-250). -/
structure DlmmRewardInfo where
  mint : Nat
  vault : Nat
  funder : Nat
  rewardDuration : Int
  rewardDurationEnd : Int
  rewardRate : Int
  lastUpdateTime : Int
  cumulativeSecondsWithEmptyLiquidityReward : Int
  deriving DecidableEq

/-- The on-chain fields of `MeteoraDlmmPool` that `Decode` parses
(`pkg/pool/meteora/bin_array.go`, lines 199-274). -/
structure DlmmPoolState where
  parameters : DlmmStaticParameters
  vParameters : DlmmVParameters
  bumpSeed : Nat
  binStepSeed : List Nat
  pairType : Nat
  activeId : Int
  binStep : Nat
  status : Nat
  requireBaseFactorSeed : Nat
  baseFactorSeed : List Nat
  activationType : Nat
  creatorPoolOnOffControl : Nat
  TokenXMint : Nat
  TokenYMint : Nat
  reserveX : Nat
  reserveY : Nat
  protocolFeeX : Nat
  protocolFeeY : Nat
  rewardInfos : List DlmmRewardInfo
  oracle : Nat
  binArrayBitmap : List Nat
  lastUpdatedAt : Int
  preActivationSwapAddress : Nat
  baseKey : Nat
  activationPoint : Nat
  preActivationDuration : Nat
  padding4 : Nat
  creator : Nat
  tokenMintXProgramFlag : Nat
  tokenMintYProgramFlag : Nat
  reserved : Nat
  deriving DecidableEq

/-- One iteration of the reward-info loop of `MeteoraDlmmPool.Decode`
(`pkg/pool/meteora/bin_array.go`, lines 431-455); reads 136 bytes. -/
def dlmmReadRewardInfo (data : Bytes) (off : Nat) : Except GoFailure DlmmRewardInfo := do
  let mint ← readLE data (off + 0) 32
  let vault ← readLE data (off + 32) 32
  let funder ← readLE data (off + 64) 32
  let rewardDuration ← readI64 data (off + 96)
  let rewardDurationEnd ← readI64 data (off + 104)
  let rewardRate ← readI64 data (off + 112)
  let lastUpdateTime ← readI64 data (off + 120)
  let cumulativeSecondsWithEmptyLiquidityReward ← readI64 data (off + 128)
  .ok { mint := mint, vault := vault, funder := funder, rewardDuration := rewardDuration,
        rewardDurationEnd := rewardDurationEnd, rewardRate := rewardRate,
        lastUpdateTime := lastUpdateTime,
        cumulativeSecondsWithEmptyLiquidityReward := cumulativeSecondsWithEmptyLiquidityReward }

/-- `MeteoraDlmmPool.Decode` (`pkg/pool/meteora/bin_array.go`, lines
312-519): starts reading at byte 8 with *no* minimum-length check (every
field is read by direct indexing), so a short input hits an index-out-of-
range panic instead of a decode error.  After the reward infos the source
hard-resets the offset to 552 (line 458). -/
def dlmmDecode (data : Bytes) : Except GoFailure DlmmPoolState := do
  let baseFactor ← readLE data 8 2
  let filterPeriod ← readLE data 10 2
  let decayPeriod ← readLE data 12 2
  let reductionFactor ← readLE data 14 2
  let variableFeeControl ← readLE data 16 4
  let maxVolatilityAccumulator ← readLE data 20 4
  let minBinId ← readI32 data 24
  let maxBinId ← readI32 data 28
  let protocolShare ← readLE data 32 2
  let baseFeePowerFactor ← readByte data 34
  let volatilityAccumulator ← readLE data 40 4
  let volatilityReference ← readLE data 44 4
  let indexReference ← readI32 data 48
  let lastUpdateTimestamp ← readI64 data 56
  let bumpSeed ← readByte data 72
  let binStepSeed0 ← readByte data 73
  let binStepSeed1 ← readByte data 74
  let pairType ← readByte data 75
  let activeId ← readI32 data 76
  let binStep ← readLE data 80 2
  let status ← readByte data 82
  let requireBaseFactorSeed ← readByte data 83
  let baseFactorSeed0 ← readByte data 84
  let baseFactorSeed1 ← readByte data 85
  let activationType ← readByte data 86
  let creatorPoolOnOffControl ← readByte data 87
  let TokenXMint ← readLE data 88 32
  let TokenYMint ← readLE data 120 32
  let reserveX ← readLE data 152 32
  let reserveY ← readLE data 184 32
  let protocolFeeX ← readLE data 216 8
  let protocolFeeY ← readLE data 224 8
  let rewardInfo0 ← dlmmReadRewardInfo data 264
  let rewardInfo1 ← dlmmReadRewardInfo data 400
  -- the source hard-resets the running offset to 552 here (line 458)
  let oracle ← readLE data 552 32
  let binArrayBitmap0 ← readLE data 584 8
  let binArrayBitmap1 ← readLE data 592 8
  let binArrayBitmap2 ← readLE data 600 8
  let binArrayBitmap3 ← readLE data 608 8
  let binArrayBitmap4 ← readLE data 616 8
  let binArrayBitmap5 ← readLE data 624 8
  let binArrayBitmap6 ← readLE data 632 8
  let binArrayBitmap7 ← readLE data 640 8
  let binArrayBitmap8 ← readLE data 648 8
  let binArrayBitmap9 ← readLE data 656 8
  let binArrayBitmap10 ← readLE data 664 8
  let binArrayBitmap11 ← readLE data 672 8
  let binArrayBitmap12 ← readLE data 680 8
  let binArrayBitmap13 ← readLE data 688 8
  let binArrayBitmap14 ← readLE data 696 8
  let binArrayBitmap15 ← readLE data 704 8
  let lastUpdatedAt ← readI64 data 712
  let preActivationSwapAddress ← readLE data 752 32
  let baseKey ← readLE data 784 32
  let activationPoint ← readLE data 816 8
  let preActivationDuration ← readLE data 824 8
  let padding4 ← readLE data 840 8
  let creator ← readLE data 848 32
  let tokenMintXProgramFlag ← readByte data 880
  let tokenMintYProgramFlag ← readByte data 881
  let reserved ← readLE data 882 22
  .ok {
   
    parameters := { baseFactor := baseFactor, filterPeriod := filterPeriod, decayPeriod := decayPeriod, reductionFactor := reductionFactor, variableFeeControl := variableFeeControl, maxVolatilityAccumulator := maxVolatilityAccumulator, minBinId := minBinId, maxBinId := maxBinId, protocolShare := protocolShare, baseFeePowerFactor := baseFeePowerFactor },
    vParameters := { volatilityAccumulator := volatilityAccumulator, volatilityReference := volatilityReference, indexReference := indexReference, lastUpdateTimestamp := lastUpdateTimestamp },
    bumpSeed := bumpSeed, binStepSeed := [binStepSeed0, binStepSeed1], pairType := pairType,
    activeId := activeId, binStep := binStep, status := status,
    requireBaseFactorSeed := requireBaseFactorSeed,
    baseFactorSeed := [baseFactorSeed0, baseFactorSeed1], activationType := activationType,
    creatorPoolOnOffControl := creatorPoolOnOffControl, TokenXMint := TokenXMint,
    TokenYMint := TokenYMint, reserveX := reserveX, reserveY := reserveY,
    protocolFeeX := protocolFeeX, protocolFeeY := protocolFeeY,
    rewardInfos := [rewardInfo0, rewardInfo1], oracle := oracle,
    binArrayBitmap := [binArrayBitmap0, binArrayBitmap1, binArrayBitmap2, binArrayBitmap3, binArrayBitmap4, binArrayBitmap5, binArrayBitmap6, binArrayBitmap7, binArrayBitmap8, binArrayBitmap9, binArrayBitmap10, binArrayBitmap11, binArrayBitmap12, binArrayBitmap13, binArrayBitmap14, binArrayBitmap15],
    lastUpdatedAt := lastUpdatedAt, preActivationSwapAddress := preActivationSwapAddress,
    baseKey := baseKey, activationPoint := activationPoint,
    preActivationDuration := preActivationDuration, padding4 := padding4, creator := creator,
    tokenMintXProgramFlag := tokenMintXProgramFlag,
    tokenMintYProgramFlag := tokenMintYProgramFlag, reserved := reserved }

/- ### PumpAMM instruction builders — claim C6 -/

/-- Solana public keys and program-derived addresses, as free terms.  PDA
derivation (sha256 and the off-curve bump search) is collision-resistant and
deterministic, so it is modelled by the free constructor `pda`; a seed that is
a key contributes its 32 bytes, `seedStr` contributes a literal byte string.
`global` names a program-wide constant whose concrete bytes live in a
constants file missing from the snapshot (distinct names are distinct keys). -/
inductive PubKey where
  | ofBase58 : String → PubKey
  | global : String → PubKey
  | seedStr : String → PubKey
  | pda : List PubKey → PubKey → PubKey

mutual

/-- Structural equality of the free key terms — the byte equality Go's `==`
and `IsZero` perform, under the no-collision reading of `pda`. -/
def pubKeyBeq : PubKey → PubKey → Bool
  | .ofBase58 a, .ofBase58 b => a == b
  | .global a, .global b => a == b
  | .seedStr a, .seedStr b => a == b
  | .pda s1 p1, .pda s2 p2 => pubKeyListBeq s1 s2 && pubKeyBeq p1 p2
  | _, _ => false

/-- Element-wise `pubKeyBeq` on seed lists. -/
def pubKeyListBeq : List PubKey → List PubKey → Bool
  | [], [] => true
  | a :: as, b :: bs => pubKeyBeq a b && pubKeyListBeq as bs
  | _, _ => false

end

/-- `solana.MustPublicKeyFromBase58("11111111111111111111111111111111")` — the
all-zero system-program key the PumpAMM builders compare `CoinCreator`
against; `PublicKey.IsZero` is equality with this key. -/
def zeroPubKey : PubKey := .ofBase58 "11111111111111111111111111111111"

/-- The SPL token program, written as a base58 literal in the builders. -/
def tokenProgramID : PubKey := .ofBase58 "TokenkegQfeZyiNwAJbNbGKPFXCWuBvf9Ss623VQ5DA"

/-- The associated-token-account program, written as a base58 literal in the
builders (`src/unnamed/part_004`, line 189). -/
def ataProgramID : PubKey := .ofBase58 "ATokenGPvbdGVxr1b2hvZbsiqW5xWH25efTNsLJA8knL"

/-- The event-authority account, written as a base58 literal in the builders
(`src/unnamed/part_004`, line 190). -/
def pumpEventAuthority : PubKey := .ofBase58 "GS4CU59F31iL7aR2Q8zVS8DRrcRnXX1yjQ66TqNVQnaR"

/-- Modelled from the spec: `PumpSwapProgramID` — the PumpAMM program id; its
defining constants file is missing from the snapshot. -/
def PumpSwapProgramID : PubKey := .global "PumpSwapProgramID"

/-- Modelled from the spec: `PumpGlobalConfig`; constants file missing. -/
def PumpGlobalConfig : PubKey := .global "PumpGlobalConfig"

/-- Modelled from the spec: `PumpProtocolFeeRecipient`; constants file
missing. -/
def PumpProtocolFeeRecipient : PubKey := .global "PumpProtocolFeeRecipient"

/-- Modelled from the spec: `PumpProtocolFeeRecipientTokenAccount`; constants
file missing. -/
def PumpProtocolFeeRecipientTokenAccount : PubKey :=
  .global "PumpProtocolFeeRecipientTokenAccount"

/-- Modelled from the spec: `sol.WSOL`, the wrapped-native-token mint the
creator-vault ATA is derived against; its defining file is missing from the
snapshot. -/
def WSOL : PubKey := .global "WSOL"

/-- `solana.FindAssociatedTokenAddress(owner, mint)`: the associated-token
PDA over seeds `[owner, tokenProgram, mint]` under the ATA program. -/
def findAssociatedTokenAddress (owner mint : PubKey) : PubKey :=
  .pda [owner, tokenProgramID, mint] ataProgramID

/-- `GetCoinCreatorVaultAuthority` (`pkg/pool/pump/utils.go`, lines 16-32):
rejects a zero key, then derives the PDA from seeds
`["creator_vault", coinCreator]` under the PumpAMM program. -/
def GetCoinCreatorVaultAuthority (coinCreator : PubKey) : Except String PubKey :=
  if pubKeyBeq coinCreator zeroPubKey then
    .error "invalid coin creator public key"
  else
    .ok (.pda [.seedStr "creator_vault", coinCreator] PumpSwapProgramID)

/-- `GetCoinCreatorVaultATA` (`pkg/pool/pump/utils.go`, lines 34-54): the
associated token account of the creator-vault authority for the
wrapped-native-token mint. -/
def GetCoinCreatorVaultATA (coinCreator : PubKey) : Except String PubKey := do
  if pubKeyBeq coinCreator zeroPubKey then
    .error "invalid coin creator public key"
  else
    let creatorVaultAuthority ← GetCoinCreatorVaultAuthority coinCreator
    .ok (findAssociatedTokenAddress creatorVaultAuthority WSOL)

/-- One ordered account reference of an instruction. -/
structure AccountMeta where
  pubkey : PubKey
  isWritable : Bool
  isSigner : Bool

/-- The `PumpAMMPool` fields the instruction builders read
(`src/unnamed/part_004`, lines 35-51; the numeric fields are not used by the
builders). -/
structure PumpAMMPoolKeys where
  PoolId : PubKey
  BaseMint : PubKey
  QuoteMint : PubKey
  PoolBaseTokenAccount : PubKey
  PoolQuoteTokenAccount : PubKey
  CoinCreator : PubKey

/-- The 17 fixed account slots shared by the buy and sell builders
(`src/unnamed/part_004`, lines 174-191 and 231-248). -/
def pumpFixedAccounts (userAddr : PubKey) (pool : PumpAMMPoolKeys)
    (userBaseAccount userQuoteAccount : PubKey) : List AccountMeta :=
  [⟨pool.PoolId, false, false⟩,
   ⟨userAddr, true, true⟩,
   ⟨PumpGlobalConfig, false, false⟩,
   ⟨pool.BaseMint, false, false⟩,
   ⟨pool.QuoteMint, false, false⟩,
   ⟨userBaseAccount, true, false⟩,
   ⟨userQuoteAccount, true, false⟩,
   ⟨pool.PoolBaseTokenAccount, true, false⟩,
   ⟨pool.PoolQuoteTokenAccount, true, false⟩,
   ⟨PumpProtocolFeeRecipient, false, false⟩,
   ⟨PumpProtocolFeeRecipientTokenAccount, true, false⟩,
   ⟨tokenProgramID, false, false⟩,
   ⟨tokenProgramID, false, false⟩,
   ⟨zeroPubKey, false, false⟩,
   ⟨ataProgramID, false, false⟩,
   ⟨pumpEventAuthority, false, false⟩,
   ⟨PumpSwapProgramID, false, false⟩]

/-- The account list of `PumpAMMPool.buyInAMMPool` (`src/unnamed/part_004`,
lines 149-207): 17 slots, plus — when `CoinCreator` is non-zero — the
creator-vault ATA (writable) at 17 and its PDA authority at 18. -/
def buyInAMMPool (userAddr : PubKey) (pool : PumpAMMPoolKeys)
    (userBaseAccount userQuoteAccount : PubKey) : Except String (List AccountMeta) := do
  let base := pumpFixedAccounts userAddr pool userBaseAccount userQuoteAccount
  if pubKeyBeq pool.CoinCreator zeroPubKey then
    .ok base
  else
    let ata ← GetCoinCreatorVaultATA pool.CoinCreator
    let authority ← GetCoinCreatorVaultAuthority pool.CoinCreator
    .ok (base ++ [⟨ata, true, false⟩, ⟨authority, false, false⟩])

/-- The account list of `PumpAMMPool.sellInAMMPool` (`src/unnamed/part_004`,
lines 209-264): identical slots except the creator-vault ATA at 17 is added
non-writable. -/
def sellInAMMPool (userAddr : PubKey) (pool : PumpAMMPoolKeys)
    (userBaseAccount userQuoteAccount : PubKey) : Except String (List AccountMeta) := do
  let base := pumpFixedAccounts userAddr pool userBaseAccount userQuoteAccount
  if pubKeyBeq pool.CoinCreator zeroPubKey then
    .ok base
  else
    let ata ← GetCoinCreatorVaultATA pool.CoinCreator
    let authority ← GetCoinCreatorVaultAuthority pool.CoinCreator
    .ok (base ++ [⟨ata, false, false⟩, ⟨authority, false, false⟩])

/-- C6: when `coin_creator` is non-zero, both the buy and the sell instruction
carry exactly 19 accounts, with the creator-vault associated token account
(derived from the authority PDA over seeds `["creator_vault", coin_creator]`
against the wrapped-native-token mint) at position 17 and the authority PDA at
position 18; when `coin_creator` is zero both carry exactly 17 accounts. -/
theorem c6_pump_coin_creator_accounts (userAddr : PubKey) (pool : PumpAMMPoolKeys)
    (userBaseAccount userQuoteAccount : PubKey) :
    (pubKeyBeq pool.CoinCreator zeroPubKey = false →
      ∃ accsBuy accsSell,
        buyInAMMPool userAddr pool userBaseAccount userQuoteAccount = .ok accsBuy ∧
        sellInAMMPool userAddr pool userBaseAccount userQuoteAccount = .ok accsSell ∧
        accsBuy.length = 19 ∧ accsSell.length = 19 ∧
        accsBuy[17]? = some ⟨findAssociatedTokenAddress
          (.pda [.seedStr "creator_vault", pool.CoinCreator] PumpSwapProgramID) WSOL,
          true, false⟩ ∧
        accsBuy[18]? = some ⟨.pda [.seedStr "creator_vault", pool.CoinCreator]
          PumpSwapProgramID, false, false⟩ ∧
        accsSell[17]? = some ⟨findAssociatedTokenAddress
          (.pda [.seedStr "creator_vault", pool.CoinCreator] PumpSwapProgramID) WSOL,
          false, false⟩ ∧
        accsSell[18]? = some ⟨.pda [.seedStr "creator_vault", pool.CoinCreator]
          PumpSwapProgramID, false, false⟩) ∧
    (pubKeyBeq pool.CoinCreator zeroPubKey = true →
      ∃ accsBuy accsSell,
        buyInAMMPool userAddr pool userBaseAccount userQuoteAccount = .ok accsBuy ∧
        sellInAMMPool userAddr pool userBaseAccount userQuoteAccount = .ok accsSell ∧
        accsBuy.length = 17 ∧ accsSell.length = 17) := by
  constructor
  · intro h
    refine ⟨pumpFixedAccounts userAddr pool userBaseAccount userQuoteAccount ++
        [⟨findAssociatedTokenAddress
            (.pda [.seedStr "creator_vault", pool.CoinCreator] PumpSwapProgramID) WSOL,
          true, false⟩,
         ⟨.pda [.seedStr "creator_vault", pool.CoinCreator] PumpSwapProgramID,
          false, false⟩],
        pumpFixedAccounts userAddr pool userBaseAccount userQuoteAccount ++
        [⟨findAssociatedTokenAddress
            (.pda [.seedStr "creator_vault", pool.CoinCreator] PumpSwapProgramID) WSOL,
          false, false⟩,
         ⟨.pda [.seedStr "creator_vault", pool.CoinCreator] PumpSwapProgramID,
          false, false⟩], ?_, ?_, ?_, ?_, ?_, ?_, ?_, ?_⟩ <;>
      simp [buyInAMMPool, sellInAMMPool, GetCoinCreatorVaultATA,
        GetCoinCreatorVaultAuthority, pumpFixedAccounts, h, bind, Except.bind]
  · intro h
    refine ⟨pumpFixedAccounts userAddr pool userBaseAccount userQuoteAccount,
        pumpFixedAccounts userAddr pool userBaseAccount userQuoteAccount,
        ?_, ?_, ?_, ?_⟩ <;>
      simp [buyInAMMPool, sellInAMMPool, pumpFixedAccounts, h]

/-- Witness for C6 at a concrete pool with a non-zero `coin_creator`. -/
theorem c6_pump_coin_creator_accounts_witness :
    pubKeyBeq (PubKey.ofBase58 "creator") zeroPubKey = false ∧
    (∃ accsBuy accsSell,
      buyInAMMPool (.ofBase58 "user")
        ⟨.ofBase58 "pool", .ofBase58 "base", .ofBase58 "quote",
         .ofBase58 "vaultB", .ofBase58 "vaultQ", .ofBase58 "creator"⟩
        (.ofBase58 "uba") (.ofBase58 "uqa") = .ok accsBuy ∧
      sellInAMMPool (.ofBase58 "user")
        ⟨.ofBase58 "pool", .ofBase58 "base", .ofBase58 "quote",
         .ofBase58 "vaultB", .ofBase58 "vaultQ", .ofBase58 "creator"⟩
        (.ofBase58 "uba") (.ofBase58 "uqa") = .ok accsSell ∧
      accsBuy.length = 19 ∧ accsSell.length = 19 ∧
      accsBuy[17]? = some ⟨findAssociatedTokenAddress
        (.pda [.seedStr "creator_vault", .ofBase58 "creator"] PumpSwapProgramID) WSOL,
        true, false⟩ ∧
      accsBuy[18]? = some ⟨.pda [.seedStr "creator_vault", .ofBase58 "creator"]
        PumpSwapProgramID, false, false⟩ ∧
      accsSell[17]? = some ⟨findAssociatedTokenAddress
        (.pda [.seedStr "creator_vault", .ofBase58 "creator"] PumpSwapProgramID) WSOL,
        false, false⟩ ∧
      accsSell[18]? = some ⟨.pda [.seedStr "creator_vault", .ofBase58 "creator"]
        PumpSwapProgramID, false, false⟩) :=
  ⟨by decide,
   (c6_pump_coin_creator_accounts (.ofBase58 "user")
      ⟨.ofBase58 "pool", .ofBase58 "base", .ofBase58 "quote",
       .ofBase58 "vaultB", .ofBase58 "vaultQ", .ofBase58 "creator"⟩
      (.ofBase58 "uba") (.ofBase58 "uqa")).1 (by decide)⟩

/-- C5: the CLMM and DLMM pool-state decoders perform no minimum-length check
and read out of bounds (a Go panic) on short input, contradicting the claim;
the AMM-v4 decoder does check (returning a graceful decode error on short
input and succeeding at exactly the 752-byte minimum). -/
theorem c5_decoders_read_out_of_bounds :
    clmmDecode (List.replicate 9 0) = .error .panicOOB ∧
    dlmmDecode (List.replicate 16 0) = .error .panicOOB ∧
    ammDecode (List.replicate 100 0) =
      .error (.decodeErr "data too short: expected 752 bytes, got 100") ∧
    (ammDecode (List.replicate 752 0)).isOk = true := by
  exact ⟨by decide, by decide, by decide, by decide⟩

/-- `wrapI64` is the identity on the signed 64-bit range. -/
lemma wrapI64_eq_self (x : Int) (hlo : -(2 ^ 63) ≤ x) (hhi : x < 2 ^ 63) :
    wrapI64 x = x := by
  unfold wrapI64
  omega

/-- `wrapU64` is the identity on the unsigned 64-bit range. -/
lemma wrapU64_eq_self (x : Int) (hlo : 0 ≤ x) (hhi : x < 2 ^ 64) :
    wrapU64 x = x := by
  unfold wrapU64
  omega

/- ### DLMM volatility accumulator — claim C7 -/

/-- Modelled from the spec: `BasisPointMax` (`BASIS_POINT_MAX`), 10000 basis
points; its defining constants file is missing from the snapshot. -/
def BasisPointMax : Nat := 10000

/-- `MeteoraDlmmPool.UpdateVolatilityAccumulator` (`src/unnamed/part_003`,
lines 254-279; the Go function always returns a nil error).  All casts are
kept: `deltaID * BASIS_POINT_MAX` is `int64` arithmetic, the sum is `uint64`
arithmetic, and the final store truncates to `uint32`.  The Go `math.Min` on
`float64` is exact here because both operands are below `2^53` whenever the
fields are within their declared `int32`/`uint32` ranges. -/
def updateVolatilityAccumulator (parameters : DlmmStaticParameters)
    (vParameters : DlmmVParameters) (activeId : Int) : DlmmVParameters :=
  let deltaID : Int := vParameters.indexReference - activeId
  let deltaID : Int := if deltaID < 0 then -deltaID else deltaID
  let deltaIdWithBasisPoint := wrapI64 (deltaID * (BasisPointMax : Int))
  let volatilityAccumulator :=
    (vParameters.volatilityReference + (wrapU64 deltaIdWithBasisPoint).toNat) % 2 ^ 64
  let minValue := min volatilityAccumulator parameters.maxVolatilityAccumulator
  { vParameters with volatilityAccumulator := minValue % 2 ^ 32 }

/-- C7: with the fields in their declared `int32`/`uint32` ranges, the updated
accumulator equals
`min(volatility_reference + |index_reference − active_id| · BASIS_POINT_MAX, max_volatility_accumulator)`
and in particular never exceeds `max_volatility_accumulator`. -/
theorem c7_volatility_accumulator_clamped (parameters : DlmmStaticParameters)
    (vParameters : DlmmVParameters) (activeId : Int)
    (hidx_lo : -(2 ^ 31) ≤ vParameters.indexReference)
    (hidx_hi : vParameters.indexReference < 2 ^ 31)
    (hact_lo : -(2 ^ 31) ≤ activeId) (hact_hi : activeId < 2 ^ 31)
    (href : vParameters.volatilityReference < 2 ^ 32)
    (hmax : parameters.maxVolatilityAccumulator < 2 ^ 32) :
    (updateVolatilityAccumulator parameters vParameters activeId).volatilityAccumulator =
      min (vParameters.volatilityReference +
            (vParameters.indexReference - activeId).natAbs * BasisPointMax)
          parameters.maxVolatilityAccumulator ∧
    (updateVolatilityAccumulator parameters vParameters activeId).volatilityAccumulator ≤
      parameters.maxVolatilityAccumulator := by
  obtain ⟨va, vr, ir, ts⟩ := vParameters
  dsimp only at hidx_lo hidx_hi href
  have hmin : (updateVolatilityAccumulator parameters ⟨va, vr, ir, ts⟩ activeId).volatilityAccumulator =
      min (vr + (ir - activeId).natAbs * BasisPointMax) parameters.maxVolatilityAccumulator := by
    show (min ((vr + (wrapU64 (wrapI64
        ((if ir - activeId < 0 then -(ir - activeId) else ir - activeId) *
          (BasisPointMax : Int)))).toNat) % 2 ^ 64)
        parameters.maxVolatilityAccumulator) % 2 ^ 32 =
      min (vr + (ir - activeId).natAbs * BasisPointMax) parameters.maxVolatilityAccumulator
    have habs : (if ir - activeId < 0 then -(ir - activeId) else ir - activeId) =
        ((ir - activeId).natAbs : Int) := by
      split_ifs <;> omega
    rw [BasisPointMax] at *
    rw [habs, wrapI64_eq_self _ (by omega) (by omega), wrapU64_eq_self _ (by omega) (by omega)]
    have hcast : ((10000 : Nat) : Int) = (10000 : Int) := by norm_num
    rw [hcast]
    have htoNat : ((((ir - activeId).natAbs : Int) * 10000).toNat) =
        (ir - activeId).natAbs * 10000 := by omega
    rw [htoNat]
    have hsum : (vr + (ir - activeId).natAbs * 10000) % 2 ^ 64 =
        vr + (ir - activeId).natAbs * 10000 := Nat.mod_eq_of_lt (by omega)
    rw [hsum]
    exact Nat.mod_eq_of_lt (lt_of_le_of_lt (min_le_right _ _) hmax)
  exact ⟨hmin, hmin ▸ min_le_right _ _⟩

/-- Witness for C7 at a concrete volatility state. -/
theorem c7_volatility_accumulator_clamped_witness :
    (updateVolatilityAccumulator
        ⟨5000, 30, 600, 5000, 40000, 350000, -443636, 443636, 2000, 0⟩
        ⟨12345, 10000, 5, 1700000000⟩ 2).volatilityAccumulator =
      min (10000 + (5 - 2 : Int).natAbs * BasisPointMax) 350000 ∧
    (updateVolatilityAccumulator
        ⟨5000, 30, 600, 5000, 40000, 350000, -443636, 443636, 2000, 0⟩
        ⟨12345, 10000, 5, 1700000000⟩ 2).volatilityAccumulator ≤ 350000 :=
  c7_volatility_accumulator_clamped
    ⟨5000, 30, 600, 5000, 40000, 350000, -443636, 443636, 2000, 0⟩
    ⟨12345, 10000, 5, 1700000000⟩ 2
    (by decide) (by decide) (by decide) (by decide) (by decide) (by decide)

/- ### DLMM quoting — claims C8 and C10

The leaf bin/bitmap helpers (`GetBinArrayLowerUpperBinID`, bin price and
amount math, the bitmap utilities and their constants) live in repository
files missing from the source snapshot; they are modelled from the spec and
marked as such.  The `Quote` driver, its loops, the swap step and the fee
pipeline are embedded from `src/unnamed/part_003` and
`pkg/pool/meteora/bin_array.go`. -/

/-- DLMM failures: a Go error value (messages abbreviated to the source's
core text, without the `fmt.Errorf` wrapping prefixes), or exhaustion of the
step budget of the embedding (the Go loops have no such budget; every
concrete run below stays far under it). -/
inductive DlmmErr
  | msg (s : String)
  | fuelExhausted
  deriving DecidableEq

/-- Modelled from the spec: `PairStatusEnabled` (status gate). -/
def PairStatusEnabled : Nat := 0

/-- Modelled from the spec: `PairTypePermission` (permissioned pair type;
permissionless pairs carry a different tag). -/
def PairTypePermission : Nat := 1

/-- Modelled from the spec: `ActivationTypeSlot`. -/
def ActivationTypeSlot : Nat := 0

/-- Modelled from the spec: `ActivationTypeTimestamp`. -/
def ActivationTypeTimestamp : Nat := 1

/-- Modelled from the spec: `FeePrecision` = 10^9 (the spec's scenario 5 uses
`ceil(1000 · base_fee / 10^9)`). -/
def FeePrecision : Nat := 1000000000

/-- Modelled from the spec: `MaxFeeRate`, the cap of
`total_fee = min(base_fee + variable_fee, MAX_FEE_RATE)`; 10% of
`FeePrecision`. -/
def MaxFeeRate : Nat := 100000000

/-- Modelled from the spec: `MinBinID` (the bin walk stays within
`[MIN_BIN_ID, MAX_BIN_ID]`). -/
def MinBinID : Int := -443636

/-- Modelled from the spec: `MaxBinID`. -/
def MaxBinID : Int := 443636

/-- Modelled from the spec: one liquidity bin (§3: amounts of both tokens, a
Q64.64 price, liquidity supply and in-flight amounts). -/
structure Bin where
  amountX : Nat
  amountY : Nat
  price : Nat
  liquiditySupply : Nat
  amountXIn : Nat
  amountYIn : Nat
  deriving DecidableEq

/-- Modelled from the spec: a bin array — an index, a version, the pair it
belongs to and 70 bins. -/
structure DlmmBinArray where
  index : Int
  version : Nat
  lbPair : Nat
  bins : List Bin
  deriving DecidableEq

/-- Modelled from the spec: the bitmap-extension record — positive and
negative sequences of 512-bit blocks (8 u64 limbs each). -/
structure BinArrayBitmapExtension where
  positiveBinArrayBitmap : List (List Nat)
  negativeBinArrayBitmap : List (List Nat)
  deriving DecidableEq

/-- The clock snapshot attached to a DLMM pool (`sol.Clock`; the defining
file is missing from the snapshot, the two fields used are the slot and the
unix timestamp). -/
structure SolClock where
  slot : Nat
  unixTimestamp : Int
  deriving DecidableEq

/-- The runtime `MeteoraDlmmPool`: the decoded on-chain state plus the
runtime attachments (`pkg/pool/meteora/bin_array.go`, lines 267-273).  The
source keys the bin-array cache by the bin array's program-derived address
for `(poolId, index)`; PDA derivation is injective for a fixed pool, so the
cache is keyed here by the index directly. -/
structure MeteoraDlmmPool where
  state : DlmmPoolState
  BinArrays : List (Int × DlmmBinArray)
  bitmapExtension : Option BinArrayBitmapExtension
  Clock : SolClock
  orgActiveId : Int
  deriving DecidableEq

/-- Modelled from the spec: `BinIDToBinArrayIndex` — 70 bins per array, with
floor division so that negative ids map to negative array indices. -/
def BinIDToBinArrayIndex (binId : Int) : Int :=
  binId.fdiv 70

/-- Modelled from the spec: `GetBinArrayLowerUpperBinID` — the id range
covered by an array. -/
def GetBinArrayLowerUpperBinID (index : Int) : Except DlmmErr (Int × Int) :=
  .ok (index * 70, index * 70 + 69)

/-- Modelled from the spec: `IsOverflowDefaultBinArrayBitmap` — the internal
16×u64 bitmap covers array indices in `[-512, 512)`. -/
def IsOverflowDefaultBinArrayBitmap (index : Int) : Bool :=
  decide (index > 511) || decide (index < -512)

/-- Modelled from the spec: `GetBinArrayOffset` — the bit position of an
array index inside the internal bitmap. -/
def GetBinArrayOffset (index : Int) : Int :=
  index + 512

/-- Modelled from the spec: `FromLimbs` — merge little-endian u64 limbs into
one wide integer. -/
def FromLimbs (limbs : List Nat) : Nat :=
  limbs.foldr (fun limb acc => limb + acc * 2 ^ 64) 0

/-- Trailing-zero count of `x` with an explicit bit budget. -/
def trailingZerosAux : Nat → Nat → Nat
  | 0, _ => 0
  | fuel + 1, x => if x % 2 = 1 then 0 else 1 + trailingZerosAux fuel (x / 2)

/-- Modelled from the spec: `MostSignificantBit(x, bits)` — the number of
leading zero bits of the low `bits` bits of `x`, or −1 when they are all
zero. -/
def dlmmMostSignificantBit (x : Nat) (bits : Nat) : Int :=
  let masked := x % 2 ^ bits
  if masked = 0 then -1 else (bits : Int) - (bitLen masked : Int)

/-- Modelled from the spec: `LeastSignificantBit(x, bits)` — the number of
trailing zero bits of the low `bits` bits of `x`, or −1 when they are all
zero. -/
def dlmmLeastSignificantBit (x : Nat) (bits : Nat) : Int :=
  let masked := x % 2 ^ bits
  if masked = 0 then -1 else (trailingZerosAux bits masked : Int)

/-- Ceiling division on `Nat`. -/
def ceilDiv (a b : Nat) : Nat :=
  (a + b - 1) / b

/-- Q64.64 multiply (the product shifted back down by 64). -/
def qmul64 (a b : Nat) : Nat :=
  (a * b) >>> 64

/-- Q64.64 power with a `Nat` exponent. -/
def qpow64 (base : Nat) : Nat → Nat
  | 0 => 2 ^ 64
  | n + 1 => qmul64 base (qpow64 base n)

/-- Modelled from the spec: the Q64.64 price of bin `id` for a bin step in
basis points — `(1 + binStep/BASIS_POINT_MAX)^id · 2^64`, with the negative-id
price as the Q64.64 reciprocal. -/
def binPriceQ64 (id : Int) (binStep : Nat) : Nat :=
  let base := ((BasisPointMax + binStep) <<< 64) / BasisPointMax
  if 0 ≤ id then qpow64 base id.toNat
  else 2 ^ 128 / qpow64 base id.natAbs

/-- Modelled from the spec: `Bin.GetOrStoreBinPrice` — return the stored
price, computing and caching it when it is still zero. -/
def getOrStoreBinPrice (bin : Bin) (activeId : Int) (binStep : Nat) : Nat × Bin :=
  if bin.price ≠ 0 then (bin.price, bin)
  else
    let p := binPriceQ64 activeId binStep
    (p, { bin with price := p })

/-- Modelled from the spec: `Bin.GetMaxAmountOut` — the bin's whole reserve
of the outgoing token. -/
def getMaxAmountOut (bin : Bin) (swapForY : Bool) : Nat :=
  if swapForY then bin.amountY else bin.amountX

/-- Modelled from the spec: `Bin.GetMaxAmountIn` — the input that exhausts
the outgoing reserve at the bin price (rounded up). -/
def getMaxAmountIn (bin : Bin) (price : Nat) (swapForY : Bool) : Except DlmmErr Nat :=
  if swapForY then
    if price = 0 then .error (.msg "division by zero") else
    .ok (ceilDiv (bin.amountY <<< 64) price)
  else
    .ok (ceilDiv (bin.amountX * price) (2 ^ 64))

/-- Modelled from the spec: `Bin.GetAmountOut` — the constant-sum allocation
of `amountIn` at the bin price (rounded down). -/
def getAmountOut (bin : Bin) (amountIn price : Nat) (swapForY : Bool) :
    Except DlmmErr Nat :=
  if swapForY then
    .ok ((amountIn * price) >>> 64)
  else
    if price = 0 then .error (.msg "division by zero") else
    .ok ((amountIn <<< 64) / price)

/-- Modelled from the spec: `Bin.IsEmpty` — whether the reserve of the given
side is zero. -/
def binIsEmpty (bin : Bin) (swapForY : Bool) : Bool :=
  if swapForY then bin.amountY = 0 else bin.amountX = 0

/-- `MeteoraDlmmPool.GetBaseFee` (`src/unnamed/part_003`, lines 357-382):
`base_factor · bin_step · 10 · 10^base_fee_power_factor`, rejected when it
exceeds 128 bits. -/
def getBaseFee (pool : MeteoraDlmmPool) : Except DlmmErr Nat :=
  let result := pool.state.parameters.baseFactor * pool.state.binStep * 10 *
    10 ^ pool.state.parameters.baseFeePowerFactor
  if 2 ^ 128 ≤ result then .error (.msg "result exceeds uint128 range")
  else .ok result

/-- `MeteoraDlmmPool.ComputeVariableFee` (`src/unnamed/part_003`, lines
390-414): `ceil(variable_fee_control · (volatility_accumulator · bin_step)^2
/ 10^11)`, or 0 when the control is zero.  The source's odd overflow test
(all three factors zero) is kept. -/
def computeVariableFee (pool : MeteoraDlmmPool) (volatilityAccumulator : Nat) :
    Except DlmmErr Nat :=
  if pool.state.parameters.variableFeeControl = 0 then .ok 0
  else
    let squareVfaBin := volatilityAccumulator * pool.state.binStep
    if squareVfaBin = 0 ∧ volatilityAccumulator = 0 ∧ pool.state.binStep = 0 then
      .error (.msg "multiplication overflow")
    else
      let squareVfaBin := squareVfaBin * squareVfaBin
      let vFee := pool.state.parameters.variableFeeControl * squareVfaBin
      .ok ((vFee + 99999999999) / 100000000000)

/-- `MeteoraDlmmPool.GetVariableFee` (`src/unnamed/part_003`, lines 385-387). -/
def getVariableFee (pool : MeteoraDlmmPool) : Except DlmmErr Nat :=
  computeVariableFee pool pool.state.vParameters.volatilityAccumulator

/-- `MeteoraDlmmPool.GetTotalFee` (`src/unnamed/part_003`, lines 332-354):
`min(base_fee + variable_fee, MAX_FEE_RATE)`. -/
def getTotalFee (pool : MeteoraDlmmPool) : Except DlmmErr Nat := do
  let baseFee ← getBaseFee pool
  let variableFee ← getVariableFee pool
  let totalFeeRate := baseFee + variableFee
  .ok (min totalFeeRate MaxFeeRate)

/-- `MeteoraDlmmPool.ComputeFee` (`pkg/pool/meteora/bin_array.go`, lines
522-558): the fee on top of a fee-free amount, by ceiling division with
`FEE_PRECISION − total_fee_rate`. -/
def computeFee (pool : MeteoraDlmmPool) (amount : Nat) : Except DlmmErr Nat := do
  let totalFeeRate ← getTotalFee pool
  if FeePrecision ≤ totalFeeRate then
    .error (.msg "denominator overflow or zero")
  else
    let denominator := FeePrecision - totalFeeRate
    let fee := (amount * totalFeeRate + denominator - 1) / denominator
    if 2 ^ 64 ≤ fee then .error (.msg "fee exceeds uint64 range")
    else .ok fee

/-- `MeteoraDlmmPool.ComputeFeeFromAmount` (`src/unnamed/part_003`, lines
308-329): `ceil(amount · total_fee_rate / FEE_PRECISION)`; the final
`big.Int.Uint64` keeps the low 64 bits. -/
def computeFeeFromAmount (pool : MeteoraDlmmPool) (amountWithFees : Nat) :
    Except DlmmErr Nat := do
  let totalFeeRate ← getTotalFee pool
  let feeAmount := (amountWithFees * totalFeeRate + (FeePrecision - 1)) / FeePrecision
  .ok (feeAmount % 2 ^ 64)

/-- `MeteoraDlmmPool.ComputeProtocolFee` (`src/unnamed/part_003`, lines
282-305): `fee · protocol_share / BASIS_POINT_MAX` in `uint128` arithmetic,
rejected when the quotient exceeds 64 bits. -/
def computeProtocolFee (pool : MeteoraDlmmPool) (feeAmount : Nat) :
    Except DlmmErr Nat :=
  let protocolFee := (feeAmount * pool.state.parameters.protocolShare) % 2 ^ 128
  let protocolFee := protocolFee / BasisPointMax
  if 2 ^ 64 ≤ protocolFee then .error (.msg "protocol fee exceeds uint64 range")
  else .ok protocolFee

/-- Go `uint64` subtraction (wraps modulo 2^64). -/
def goSub64 (a b : Nat) : Nat :=
  (a + 2 ^ 64 - b % 2 ^ 64) % 2 ^ 64

/-- `BinArray.IsBinIDWithinRange` (`pkg/pool/meteora/bin_array.go`, lines
66-72). -/
def isBinIDWithinRange (binArray : DlmmBinArray) (activeId : Int) :
    Except DlmmErr Bool := do
  let bounds ← GetBinArrayLowerUpperBinID (wrapI32 binArray.index)
  .ok (decide (bounds.1 ≤ activeId) && decide (activeId ≤ bounds.2))

/-- `BinArray.GetBinIndexInArray` (`pkg/pool/meteora/bin_array.go`, lines
40-63). -/
def getBinIndexInArray (binArray : DlmmBinArray) (activeId : Int) :
    Except DlmmErr Nat := do
  let withinRange ← isBinIDWithinRange binArray activeId
  if ¬withinRange then .error (.msg "bin id out of range")
  else do
    let bounds ← GetBinArrayLowerUpperBinID (wrapI32 binArray.index)
    let index := activeId - bounds.1
    if index < 0 then .error (.msg "index calculation overflow")
    else .ok index.toNat

/-- `BinArray.GetBinMut` (`pkg/pool/meteora/bin_array.go`, lines 23-37),
returning the bin's position so the caller can write the mutated bin back. -/
def getBinMut (binArray : DlmmBinArray) (activeId : Int) :
    Except DlmmErr Nat := do
  let index ← getBinIndexInArray binArray activeId
  if binArray.bins.length ≤ index then .error (.msg "bin index out of range")
  else .ok index

/-- The result record of one per-bin swap (`src/unnamed/part_003`, lines
131-142). -/
structure DlmmSwapResult where
  amountInWithFees : Nat
  amountOut : Nat
  fee : Nat
  protocolFee : Nat
  isExactOutAmount : Bool
  deriving DecidableEq

/-- `MeteoraDlmmPool.Swap` (`src/unnamed/part_003`, lines 145-222): one bin's
constant-sum swap with fee, returning the result and the mutated bin (Go
mutates the bin through a pointer into the caller's array copy).  The two
`big.Int.Uint64` conversions and the `uint64` add/sub wraps are kept. -/
def dlmmSwap (pool : MeteoraDlmmPool) (bin : Bin) (amountIn : Nat)
    (swapForY : Bool) : Except DlmmErr (DlmmSwapResult × Bin) := do
  let ps := getOrStoreBinPrice bin pool.state.activeId pool.state.binStep
  let price := ps.1
  let bin := ps.2
  let maxAmountOut := getMaxAmountOut bin swapForY
  let maxAmountInBig ← getMaxAmountIn bin price swapForY
  let maxFee ← computeFee pool (maxAmountInBig % 2 ^ 64)
  let maxAmountInBig := maxAmountInBig + maxFee
  if maxAmountInBig % 2 ^ 64 < amountIn then
    let protocolFee ← computeProtocolFee pool maxFee
    let amountInWithFees := maxAmountInBig % 2 ^ 64
    let amountOut := maxAmountOut
    let fee := maxFee
    let amountIntoBin := goSub64 amountInWithFees fee
    if swapForY then
      if bin.amountY < amountOut then .error (.msg "insufficient Y amount")
      else
        .ok (⟨amountInWithFees, amountOut, fee, protocolFee, false⟩,
          { bin with amountX := (bin.amountX + amountIntoBin) % 2 ^ 64,
                     amountY := bin.amountY - amountOut })
    else
      if bin.amountX < amountOut then .error (.msg "insufficient X amount")
      else
        .ok (⟨amountInWithFees, amountOut, fee, protocolFee, false⟩,
          { bin with amountY := (bin.amountY + amountIntoBin) % 2 ^ 64,
                     amountX := bin.amountX - amountOut })
  else
    let fee ← computeFeeFromAmount pool amountIn
    let amountInAfterFee := goSub64 amountIn fee
    let amountOutTemp ← getAmountOut bin amountInAfterFee price swapForY
    let amountOut := min (amountOutTemp % 2 ^ 64) maxAmountOut
    let amountInWithFees := amountIn
    let protocolFee ← computeProtocolFee pool fee
    let amountIntoBin := goSub64 amountInWithFees fee
    if swapForY then
      if bin.amountY < amountOut then .error (.msg "insufficient Y amount")
      else
        .ok (⟨amountInWithFees, amountOut, fee, protocolFee, false⟩,
          { bin with amountX := (bin.amountX + amountIntoBin) % 2 ^ 64,
                     amountY := bin.amountY - amountOut })
    else
      if bin.amountX < amountOut then .error (.msg "insufficient X amount")
      else
        .ok (⟨amountInWithFees, amountOut, fee, protocolFee, false⟩,
          { bin with amountY := (bin.amountY + amountIntoBin) % 2 ^ 64,
                     amountX := bin.amountX - amountOut })

/-- `MeteoraDlmmPool.validateSwapActivation` (`src/unnamed/part_003`, lines
84-110).  `now` is the ambient `time.Now().Unix()` call — a value *outside*
the pool-state snapshot; the slot comes from the snapshot's clock. -/
def validateSwapActivation (pool : MeteoraDlmmPool) (now : Int) :
    Except DlmmErr Unit :=
  let currentTimestamp := (wrapU64 now).toNat
  let currentSlot := pool.Clock.slot
  if pool.state.status ≠ PairStatusEnabled then
    .error (.msg "pair is disabled")
  else if pool.state.pairType = PairTypePermission then
    if pool.state.activationType = ActivationTypeSlot then
      if currentSlot < pool.state.activationPoint then
        .error (.msg "pair is not yet activated")
      else .ok ()
    else if pool.state.activationType = ActivationTypeTimestamp then
      if currentTimestamp < pool.state.activationPoint then
        .error (.msg "pair is not yet activated")
      else .ok ()
    else .error (.msg "invalid activation type")
  else .ok ()

/-- `MeteoraDlmmPool.UpdateReferences` (`src/unnamed/part_003`, lines
113-128).  The volatility-reference update multiplies two `uint32`s in
`uint32` arithmetic (kept as a wrap at 2^32). -/
def updateReferences (pool : MeteoraDlmmPool) : MeteoraDlmmPool :=
  let elapsed := pool.Clock.unixTimestamp - pool.state.vParameters.lastUpdateTimestamp
  if (pool.state.parameters.filterPeriod : Int) ≤ elapsed then
    let vp := { pool.state.vParameters with indexReference := pool.state.activeId }
    if elapsed < (pool.state.parameters.decayPeriod : Int) then
      let volatilityAccumulator :=
        (vp.volatilityAccumulator * pool.state.parameters.reductionFactor) % 2 ^ 32
      let volatilityReference := volatilityAccumulator / BasisPointMax
      { pool with state.vParameters :=
          { vp with volatilityReference := volatilityReference } }
    else
      { pool with state.vParameters := { vp with volatilityReference := 0 } }
  else
    pool

/-- `MeteoraDlmmPool.AdvanceActiveBin` (`src/unnamed/part_003`, lines
417-445): step the active bin by ±1 with `int32` overflow and
`[MinBinID, MaxBinID]` range checks. -/
def advanceActiveBin (pool : MeteoraDlmmPool) (swapForY : Bool) :
    Except DlmmErr MeteoraDlmmPool :=
  if swapForY then
    if pool.state.activeId = -(2 ^ 31) then .error (.msg "bin id underflow")
    else
      let nextActiveBinID := pool.state.activeId - 1
      if nextActiveBinID < MinBinID ∨ MaxBinID < nextActiveBinID then
        .error (.msg "insufficient liquidity: bin id out of range")
      else .ok { pool with state.activeId := nextActiveBinID }
  else
    if pool.state.activeId = 2 ^ 31 - 1 then .error (.msg "bin id overflow")
    else
      let nextActiveBinID := pool.state.activeId + 1
      if nextActiveBinID < MinBinID ∨ MaxBinID < nextActiveBinID then
        .error (.msg "insufficient liquidity: bin id out of range")
      else .ok { pool with state.activeId := nextActiveBinID }

/-- `MeteoraDlmmPool.NextBinArrayIndexWithLiquidityInternal`
(`src/unnamed/part_003`, lines 225-251): search the merged 1024-bit internal
bitmap from `startArrayIndex` in the swap direction. -/
def nextBinArrayIndexWithLiquidityInternal (pool : MeteoraDlmmPool)
    (swapForY : Bool) (startArrayIndex : Int) : Except DlmmErr (Int × Bool) :=
  let binArrayBitmap := FromLimbs pool.state.binArrayBitmap
  let arrayOffset := GetBinArrayOffset startArrayIndex
  let minBitmapID : Int := -512
  let maxBitmapID : Int := 511
  if swapForY then
    let bitmapRange := (maxBitmapID - minBitmapID).toNat
    let offsetBitMap := binArrayBitmap <<< (bitmapRange - arrayOffset.toNat)
    let mostSignificantBit := dlmmMostSignificantBit offsetBitMap 1024
    if mostSignificantBit < 0 then .ok (minBitmapID - 1, false)
    else .ok (startArrayIndex - mostSignificantBit, true)
  else
    let offsetBitMap := binArrayBitmap >>> arrayOffset.toNat
    let lsb := dlmmLeastSignificantBit offsetBitMap 1024
    if lsb < 0 then .ok (maxBitmapID + 1, false)
    else .ok (startArrayIndex + lsb, true)

/-- Modelled from the spec: the bitmap-extension search
(`BinArrayBitmapExtension.NextBinArrayIndexWithLiquidity`; its defining file
is missing from the snapshot).  Each 512-bit extension block covers the next
512 array indices beyond the internal bitmap on its side; the next set bit in
the swap direction is located, reporting `false` at the boundary back toward
the internal bitmap, mirroring the internal search's contract. -/
def extBitGet (ext : BinArrayBitmapExtension) (index : Int) : Bool :=
  if 511 < index then
    let off := (index - 512).toNat
    let block := ext.positiveBinArrayBitmap.getD (off / 512) []
    (FromLimbs block >>> (off % 512)) % 2 = 1
  else if index < -512 then
    let off := (-index - 513).toNat
    let block := ext.negativeBinArrayBitmap.getD (off / 512) []
    (FromLimbs block >>> (off % 512)) % 2 = 1
  else
    false

/-- Modelled from the spec: scan the extension from `start` in the swap
direction for a set bit, stopping with `false` at the extension boundary
(handing the search back toward the internal bitmap). -/
def extScan (ext : BinArrayBitmapExtension) (swapForY : Bool) :
    Nat → Int → Except DlmmErr (Int × Bool)
  | 0, _ => .error .fuelExhausted
  | fuel + 1, index =>
    if swapForY then
      if -512 ≤ index ∧ index ≤ 511 then .ok (511, false)
      else if index < -512 - 512 * 14 then .error (.msg "bin array index out of range")
      else if extBitGet ext index then .ok (index, true)
      else extScan ext swapForY fuel (index - 1)
    else
      if -512 ≤ index ∧ index ≤ 511 then .ok (-512, false)
      else if 511 + 512 * 14 < index then .error (.msg "bin array index out of range")
      else if extBitGet ext index then .ok (index, true)
      else extScan ext swapForY fuel (index + 1)

/-- Modelled from the spec:
`BinArrayBitmapExtension.NextBinArrayIndexWithLiquidity`. -/
def extNextBinArrayIndexWithLiquidity (ext : BinArrayBitmapExtension)
    (swapForY : Bool) (startArrayIndex : Int) : Except DlmmErr (Int × Bool) :=
  extScan ext swapForY 16384 startArrayIndex

/-- `MeteoraDlmmPool.getCurrentActiveBinArray` (`src/unnamed/part_003`, lines
497-543).  When the search reports no liquidity, the Go `binArrayIdx`
variable keeps its zero value and the cache is consulted for array 0 (the
`startBinArrayIdx` updates on lines 516-531 are dead stores). -/
def getCurrentActiveBinArray (pool : MeteoraDlmmPool) (swapForY : Bool) :
    Except DlmmErr DlmmBinArray := do
  let startBinArrayIdx := BinIDToBinArrayIndex pool.state.activeId
  let binArrayIdx ←
    if IsOverflowDefaultBinArrayBitmap (wrapI32 startBinArrayIdx) then
      match pool.bitmapExtension with
      | none => .error (.msg "bitmapExtension is nil")
      | some ext => do
        let r ← extNextBinArrayIndexWithLiquidity ext swapForY (wrapI32 startBinArrayIdx)
        if r.2 then pure r.1 else pure 0
    else do
      let r ← nextBinArrayIndexWithLiquidityInternal pool swapForY (wrapI32 startBinArrayIdx)
      if r.2 then pure r.1 else pure 0
  match pool.BinArrays.lookup binArrayIdx with
  | none => .error (.msg "active bin array not found")
  | some binArray => .ok binArray

/-- The inner bin loop of `MeteoraDlmmPool.Quote` (`src/unnamed/part_003`,
lines 39-76): walk the bins of the current array copy, swapping through each
non-empty bin and advancing the active id, until the id leaves the array (or
the *original* input amount is zero — the source tests `inputAmount`, not the
remaining amount).  The source's `amountLeft.Uint64()` panics outside the
`uint64` range; that panic is surfaced as an error.  The recursion argument
is the embedding's step budget. -/
def quoteInner (inputAmount : Int) (swapForY : Bool) :
    Nat → MeteoraDlmmPool → DlmmBinArray → Int → Int →
    Except DlmmErr (MeteoraDlmmPool × Int × Int)
  | 0, _, _, _, _ => .error .fuelExhausted
  | fuel + 1, pool, activeBinArray, amountLeft, totalAmountOut => do
    let withinRange ← isBinIDWithinRange activeBinArray pool.state.activeId
    if ¬withinRange ∨ inputAmount = 0 then do
      let pool ← advanceActiveBin pool swapForY
      .ok (pool, amountLeft, totalAmountOut)
    else do
      let vp2 := updateVolatilityAccumulator pool.state.parameters
        pool.state.vParameters pool.state.activeId
      let pool := { pool with state.vParameters := vp2 }
      let binIdx ← getBinMut activeBinArray pool.state.activeId
      let activeBin := activeBinArray.bins.getD binIdx ⟨0, 0, 0, 0, 0, 0⟩
      if ¬ binIsEmpty activeBin (!swapForY) then do
        if amountLeft < 0 ∨ 2 ^ 64 ≤ amountLeft then
          .error (.msg "Uint64 out of range")
        else do
          let r ← dlmmSwap pool activeBin amountLeft.toNat swapForY
          let activeBinArray :=
            { activeBinArray with bins := activeBinArray.bins.set binIdx r.2 }
          let amountLeft := amountLeft - wrapI64 r.1.amountInWithFees
          let totalAmountOut := totalAmountOut + wrapI64 r.1.amountOut
          let pool ← advanceActiveBin pool swapForY
          quoteInner inputAmount swapForY fuel pool activeBinArray amountLeft totalAmountOut
      else do
        let pool ← advanceActiveBin pool swapForY
        quoteInner inputAmount swapForY fuel pool activeBinArray amountLeft totalAmountOut

/-- The outer loop of `MeteoraDlmmPool.Quote` (`src/unnamed/part_003`, lines
31-77): while input remains, fetch the current active bin array and walk it. -/
def quoteOuter (inputAmount : Int) (swapForY : Bool) :
    Nat → MeteoraDlmmPool → Int → Int → Except DlmmErr (MeteoraDlmmPool × Int)
  | 0, _, _, _ => .error .fuelExhausted
  | fuel + 1, pool, amountLeft, totalAmountOut =>
    if 0 < amountLeft then do
      let activeBinArray ← getCurrentActiveBinArray pool swapForY
      let r ← quoteInner inputAmount swapForY 256 pool activeBinArray
        amountLeft totalAmountOut
      quoteOuter inputAmount swapForY fuel r.1 r.2.1 r.2.2
    else
      .ok (pool, totalAmountOut)

/-- `MeteoraDlmmPool.Quote` (`src/unnamed/part_003`, lines 18-81): save the
active id, gate on activation (`now` is the ambient `time.Now().Unix()`),
update the volatility references, run the bin walk, and restore the active id
before the successful return.  `fuel` bounds the outer loop (the Go loop has
no bound; every run below stays far under it). -/
def dlmmQuote (fuel : Nat) (pool : MeteoraDlmmPool) (now : Int)
    (inputMint : Nat) (inputAmount : Int) : Except DlmmErr (MeteoraDlmmPool × Int) :=
  let pool := { pool with orgActiveId := pool.state.activeId }
  match validateSwapActivation pool now with
  | .error e => .error e
  | .ok _ =>
    let pool := updateReferences pool
    let amountLeft := inputAmount
    let swapForY := inputMint == pool.state.TokenXMint
    match quoteOuter inputAmount swapForY fuel pool amountLeft 0 with
    | .error e => .error e
    | .ok r =>
      .ok ({ r.1 with state.activeId := r.1.orgActiveId }, r.2)

lemma advanceActiveBin_orgActiveId {pool pool' : MeteoraDlmmPool} {sfy : Bool}
    (h : advanceActiveBin pool sfy = .ok pool') : pool'.orgActiveId = pool.orgActiveId := by
  unfold advanceActiveBin at h
  dsimp only at h
  repeat' split at h
  all_goals first
    | (injection h with h2; subst h2; rfl)
    | simp at h

lemma quoteInner_orgActiveId (ia : Int) (sfy : Bool) :
    ∀ (fuel : Nat) (pool : MeteoraDlmmPool) (arr : DlmmBinArray) (al out : Int)
      (p' : MeteoraDlmmPool) (a t : Int),
      quoteInner ia sfy fuel pool arr al out = .ok (p', a, t) →
      p'.orgActiveId = pool.orgActiveId := by
  intro fuel
  induction fuel with
  | zero =>
    intro pool arr al out p' a t h
    simp [quoteInner] at h
  | succ fuel ih =>
    intro pool arr al out p' a t h
    simp only [quoteInner, bind, Except.bind] at h
    split at h
    · exact absurd h (by simp)
    split at h
    · -- break branch: advance then return
      split at h
      · exact absurd h (by simp)
      · simp only [Except.ok.injEq, Prod.mk.injEq] at h
        obtain ⟨hp, -, -⟩ := h
        subst hp
        exact advanceActiveBin_orgActiveId (by assumption)
    · -- walk branch
      split at h
      · exact absurd h (by simp)
      split at h
      · -- non-empty bin
        split at h
        · exact absurd h (by simp)
        split at h
        · exact absurd h (by simp)
        split at h
        · exact absurd h (by simp)
        · rename_i pool2 hadv
          have h1 := ih _ _ _ _ _ _ _ h
          have h2 := advanceActiveBin_orgActiveId hadv
          simp_all
      · -- empty bin
        split at h
        · exact absurd h (by simp)
        · rename_i pool2 hadv
          have h1 := ih _ _ _ _ _ _ _ h
          have h2 := advanceActiveBin_orgActiveId hadv
          simp_all

lemma quoteOuter_orgActiveId (ia : Int) (sfy : Bool) :
    ∀ (fuel : Nat) (pool : MeteoraDlmmPool) (al out : Int)
      (p' : MeteoraDlmmPool) (t : Int),
      quoteOuter ia sfy fuel pool al out = .ok (p', t) →
      p'.orgActiveId = pool.orgActiveId := by
  intro fuel
  induction fuel with
  | zero =>
    intro pool al out p' t h
    simp [quoteOuter] at h
  | succ fuel ih =>
    intro pool al out p' t h
    simp only [quoteOuter, bind, Except.bind] at h
    split at h
    · split at h
      · exact absurd h (by simp)
      split at h
      · exact absurd h (by simp)
      · rename_i r hinner
        have h1 := ih _ _ _ _ _ h
        have h2 := quoteInner_orgActiveId ia sfy _ _ _ _ _ _ _ _ hinner
        simp_all
    · simp only [Except.ok.injEq, Prod.mk.injEq] at h
      obtain ⟨hp, -⟩ := h
      subst hp
      rfl

lemma updateReferences_orgActiveId (pool : MeteoraDlmmPool) :
    (updateReferences pool).orgActiveId = pool.orgActiveId := by
  unfold updateReferences
  dsimp only
  split_ifs <;> rfl

lemma updateReferences_activeId (pool : MeteoraDlmmPool) :
    (updateReferences pool).state.activeId = pool.state.activeId := by
  unfold updateReferences
  dsimp only
  split_ifs <;> rfl

/-- C10: every successful `Quote` restores the active bin id — the returned
pool carries the same active id as the snapshot the call started from, even
though the bin walk advanced it bin-by-bin in between. -/
theorem c10_quote_restores_active_id (fuel : Nat) (pool : MeteoraDlmmPool)
    (now : Int) (inputMint : Nat) (inputAmount : Int)
    (p' : MeteoraDlmmPool) (out : Int)
    (h : dlmmQuote fuel pool now inputMint inputAmount = .ok (p', out)) :
    p'.state.activeId = pool.state.activeId := by
  unfold dlmmQuote at h
  dsimp only at h
  split at h
  · exact absurd h (by simp)
  · split at h
    · exact absurd h (by simp)
    · rename_i r houter
      simp only [Except.ok.injEq, Prod.mk.injEq] at h
      obtain ⟨hp, -⟩ := h
      subst hp
      have h1 := quoteOuter_orgActiveId _ _ _ _ _ _ _ _ houter
      rw [updateReferences_orgActiveId] at h1
      simpa using h1

/-- A concrete enabled permissionless DLMM pool snapshot. -/
def cPool10 : MeteoraDlmmPool :=
  { state :=
    { parameters := ⟨5000, 3, 600, 5000, 40000, 350000, -443636, 443636, 2000, 0⟩
      vParameters := ⟨0, 0, 3, 1000⟩
      bumpSeed := 0, binStepSeed := [], pairType := 0, activeId := 5,
      binStep := 10, status := 0, requireBaseFactorSeed := 0, baseFactorSeed := [],
      activationType := 0, creatorPoolOnOffControl := 0, TokenXMint := 7,
      TokenYMint := 9, reserveX := 0, reserveY := 0, protocolFeeX := 0,
      protocolFeeY := 0, rewardInfos := [], oracle := 0,
      binArrayBitmap := List.replicate 16 0, lastUpdatedAt := 0,
      preActivationSwapAddress := 0, baseKey := 0, activationPoint := 0,
      preActivationDuration := 0, padding4 := 0, creator := 0,
      tokenMintXProgramFlag := 0, tokenMintYProgramFlag := 0, reserved := 0 }
    BinArrays := [], bitmapExtension := none, Clock := ⟨100, 1005⟩,
    orgActiveId := 99 }

/-- The pool `dlmmQuote` returns on `cPool10`: the reference update moved the
index reference to the active id and `orgActiveId` was overwritten on entry,
but the active id itself is back to its snapshot value. -/
def cPool10res : MeteoraDlmmPool :=
  { cPool10 with state.vParameters := ⟨0, 0, 5, 1000⟩, orgActiveId := 5 }

theorem c10_quote_restores_active_id_witness :
    dlmmQuote 1 cPool10 999 7 0 = .ok (cPool10res, 0) ∧
    cPool10res.state.activeId = cPool10.state.activeId :=
  ⟨by decide, c10_quote_restores_active_id 1 cPool10 999 7 0 cPool10res 0 (by decide)⟩

/- ### Claim C8 -/

/-- A permissioned (`pairType = 1`), timestamp-activated DLMM pool with
activation point 150: `validateSwapActivation` compares the activation point
against the ambient wall clock (`time.Now().Unix()` in the source), which is
not part of the snapshot. -/
def cPool8p : MeteoraDlmmPool :=
  { state :=
    { parameters := ⟨5000, 3, 600, 5000, 40000, 350000, -443636, 443636, 2000, 0⟩
      vParameters := ⟨0, 0, 3, 1000⟩
      bumpSeed := 0, binStepSeed := [], pairType := 1, activeId := 5,
      binStep := 10, status := 0, requireBaseFactorSeed := 0, baseFactorSeed := [],
      activationType := 1, creatorPoolOnOffControl := 0, TokenXMint := 7,
      TokenYMint := 9, reserveX := 0, reserveY := 0, protocolFeeX := 0,
      protocolFeeY := 0, rewardInfos := [], oracle := 0,
      binArrayBitmap := List.replicate 16 0, lastUpdatedAt := 0,
      preActivationSwapAddress := 0, baseKey := 0, activationPoint := 150,
      preActivationDuration := 0, padding4 := 0, creator := 0,
      tokenMintXProgramFlag := 0, tokenMintYProgramFlag := 0, reserved := 0 }
    BinArrays := [], bitmapExtension := none, Clock := ⟨100, 1005⟩,
    orgActiveId := 5 }

/-- C8 counterexample: on the fixed snapshot `cPool8p` with input mint 7 and
input amount 0, two `Quote` calls made at ambient times 100 and 200 disagree
— the first is rejected with "pair is not yet activated", the second
succeeds — because `validateSwapActivation` reads `time.Now().Unix()`, which
is not part of the snapshot; so quoting is not repeatable on a fixed
snapshot for permissioned pools. -/
theorem c8_counterexample :
    dlmmQuote 1 cPool8p 100 7 0 = .error (.msg "pair is not yet activated") ∧
    (dlmmQuote 1 cPool8p 200 7 0).isOk = true ∧
    dlmmQuote 1 cPool8p 100 7 0 ≠ dlmmQuote 1 cPool8p 200 7 0 :=
  ⟨by decide, by decide, by decide⟩

lemma validateSwapActivation_time_independent (pool : MeteoraDlmmPool)
    (now now' : Int) (h : pool.state.pairType ≠ PairTypePermission) :
    validateSwapActivation pool now = validateSwapActivation pool now' := by
  unfold validateSwapActivation
  dsimp only
  by_cases h1 : pool.state.status ≠ PairStatusEnabled
  · rw [if_pos h1, if_pos h1]
  · rw [if_neg h1, if_neg h1, if_neg h, if_neg h]

/-- C8 (amended): away from the permissioned pair type, `Quote`'s result
does not depend on the ambient wall-clock time, so on a fixed snapshot two
calls with the same input mint and amount return the same result. -/
theorem c8_quote_time_independent (fuel : Nat) (pool : MeteoraDlmmPool)
    (now now' : Int) (inputMint : Nat) (inputAmount : Int)
    (h : pool.state.pairType ≠ PairTypePermission) :
    dlmmQuote fuel pool now inputMint inputAmount =
      dlmmQuote fuel pool now' inputMint inputAmount := by
  unfold dlmmQuote
  dsimp only
  rw [validateSwapActivation_time_independent
    ({ pool with orgActiveId := pool.state.activeId }) now now' h]

/-- A permissionless pool for the C8 witness. -/
def cPool8w : MeteoraDlmmPool :=
  { cPool8p with
    state.pairType := 0
    state.activationType := 0
    state.activationPoint := 0 }

theorem c8_quote_time_independent_witness :
    cPool8w.state.pairType ≠ PairTypePermission ∧
    dlmmQuote 1 cPool8w 100 7 0 = dlmmQuote 1 cPool8w 200 7 0 :=
  ⟨by decide, c8_quote_time_independent 1 cPool8w 100 200 7 0 (by decide)⟩

/- ### CLMM swap simulation — claim C4 -/

/-- Number of ticks per tick array (`pkg/pool/raydium/ammPool.go`, line 530:
`TICK_ARRAY_SIZE=60`). -/
def TICK_ARRAY_SIZE : Int := 60

/-- Modelled from the spec: the internal tick-array bitmap covers array
indices in `[-512, 512)` ("a single 16×u64 word covers ticks whose array
indices fall in [−512, 512)"), so the per-side size constant is 512.  The
defining constants file is missing from the snapshot. -/
def TICK_ARRAY_BITMAP_SIZE : Int := 512

/-- Modelled from the spec: each extension side carries 14 blocks of 512
array indices (the reference Raydium layout backing the spec's extension
description); the defining constants file is missing from the snapshot. -/
def EXTENSION_TICKARRAY_BITMAP_SIZE : Int := 14

/-- Modelled from the spec: the fee-rate denominator `FEE_DEN` of the CLMM
step computation, 10^6 (fee rates are given in hundredths of a bip); the
defining constants file is missing from the snapshot. -/
def FEE_RATE_DENOMINATOR : Int := 1000000

/-- Modelled from the spec: "a dedicated U64Resolution constant of 64 is
used as the canonical shift"; the defining constants file is missing from
the snapshot. -/
def U64Resolution : Nat := 64

/-- Go helper `abs` (`pkg/pool/raydium/ammPool.go`, lines 862-867). -/
def goAbs (x : Int) : Int :=
  if x < 0 then -x else x

/-- Go `getTickCount` (`pkg/pool/raydium/ammPool.go`, lines 752-754). -/
def getTickCount (tickSpacing : Int) : Int :=
  tickSpacing * TICK_ARRAY_SIZE

/-- Go `GetArrayStartIndex` (`pkg/pool/raydium/ammPool.go`, lines
1195-1199): the float `math.Floor` division is exact floor division for the
tick magnitudes involved, embedded as `Int.fdiv`. -/
def GetArrayStartIndex (tickIndex tickSpacing : Int) : Int :=
  (tickIndex.fdiv (getTickCount tickSpacing)) * getTickCount tickSpacing

/-- Go `checkIsValidStartIndex` (`pkg/pool/raydium/ammPool.go`, lines
1158-1160); Go `%` is truncated remainder. -/
def checkIsValidStartIndex (startIndex tickSpacing : Int) : Bool :=
  startIndex.tmod (getTickCount tickSpacing) == 0

/-- Go `maxTickInTickarrayBitmap` (`pkg/pool/raydium/ammPool.go`, lines
1163-1165). -/
def maxTickInTickarrayBitmap (tickSpacing : Int) : Int :=
  TICK_ARRAY_BITMAP_SIZE * getTickCount tickSpacing

/-- Go `MaxTickInTickarrayBitmap` (`pkg/pool/raydium/ammPool.go`, lines
857-859) — the exported twin of `maxTickInTickarrayBitmap`. -/
def MaxTickInTickarrayBitmap (tickSpacing : Int) : Int :=
  TICK_ARRAY_BITMAP_SIZE * getTickCount tickSpacing

/-- Go `MergeTickArrayBitmap` (`pkg/pool/raydium/ammPool.go`, lines
1201-1214): little-endian u64 limbs merged into one wide integer. -/
def MergeTickArrayBitmap (bns : List Nat) : Nat :=
  bns.foldr (fun bn acc => bn + acc * 2 ^ 64) 0

/-- Go `IsZero` (`pkg/pool/raydium/ammPool.go`, lines 1390-1400): test the
low `bitNum` bits. -/
def IsZero (bitNum : Nat) (data : Nat) : Bool :=
  data % 2 ^ bitNum == 0

/-- Leading-zero scan from bit `j - 1` downward (the loop body of Go
`LeadingZeros`). -/
def leadingZerosAux (data : Nat) : Nat → Nat
  | 0 => 0
  | j + 1 => if data.testBit j then 0 else leadingZerosAux data j + 1

/-- Go `LeadingZeros` (`pkg/pool/raydium/ammPool.go`, lines 1376-1387):
number of leading zeros of the low `bitNum` bits (always defined). -/
def LeadingZeros (bitNum : Nat) (data : Nat) : Nat :=
  leadingZerosAux data bitNum

/-- Trailing-zero scan from bit `j` upward with an explicit bit budget (the
loop body of Go `TrailingZeros`). -/
def trailingZerosFrom (data : Nat) : Nat → Nat → Nat
  | 0, _ => 0
  | f + 1, j => if data.testBit j then 0 else trailingZerosFrom data f (j + 1) + 1

/-- Go `TrailingZeros` (`pkg/pool/raydium/ammPool.go`, lines 1182-1193):
number of trailing zeros among the low `bitNum` bits (always defined). -/
def TrailingZeros (bitNum : Nat) (data : Nat) : Nat :=
  trailingZerosFrom data bitNum 0

/-- Go `MostSignificantBit` (`pkg/pool/raydium/ammPool.go`, lines
1172-1179): `nil` (here `none`) exactly when the low `bitNum` bits are
zero. -/
def MostSignificantBit (bitNum : Nat) (data : Nat) : Option Nat :=
  if IsZero bitNum data then none else some (LeadingZeros bitNum data)

/-- Go `LeastSignificantBit` (`pkg/pool/raydium/ammPool.go`, lines
1366-1373). -/
def LeastSignificantBit (bitNum : Nat) (data : Nat) : Option Nat :=
  if IsZero bitNum data then none else some (TrailingZeros bitNum data)

/-- Go `TickArrayBitmapExtensionType` (`pkg/pool/raydium/ammPool.go`, lines
520-524); the `PoolId` field plays no role in the swap computation and is
dropped. -/
structure TickArrayBitmapExtensionType where
  PositiveTickArrayBitmap : List (List Nat)
  NegativeTickArrayBitmap : List (List Nat)
  deriving DecidableEq

/-- Go `TickArrayOffsetInBitmap` (`pkg/pool/raydium/ammPool.go`, lines
844-854). -/
def TickArrayOffsetInBitmap (tickArrayStartIndex tickSpacing : Int) : Int :=
  let maxTick := MaxTickInTickarrayBitmap tickSpacing
  let m := (goAbs tickArrayStartIndex).tmod maxTick
  let tickArrayOffsetInBitmap := m.tdiv (getTickCount tickSpacing)
  if tickArrayStartIndex < 0 ∧ m ≠ 0 then
    TICK_ARRAY_BITMAP_SIZE - tickArrayOffsetInBitmap
  else tickArrayOffsetInBitmap

/-- Go `GetBitmapTickBoundary` (`pkg/pool/raydium/ammPool.go`, lines
870-885). -/
def GetBitmapTickBoundary (tickarrayStartIndex tickSpacing : Int) : Int × Int :=
  let ticksInOneBitmap := MaxTickInTickarrayBitmap tickSpacing
  let m := (goAbs tickarrayStartIndex).tdiv ticksInOneBitmap
  let m :=
    if tickarrayStartIndex < 0 ∧ (goAbs tickarrayStartIndex).tmod ticksInOneBitmap ≠ 0 then
      m + 1
    else m
  let minValue := ticksInOneBitmap * m
  if tickarrayStartIndex < 0 then (-minValue, -minValue + ticksInOneBitmap)
  else (minValue, minValue + ticksInOneBitmap)

/-- Go `ExtensionTickBoundary` (`pkg/pool/raydium/ammPool.go`, lines
936-948). -/
def ExtensionTickBoundary (tickSpacing : Int) : Except String (Int × Int) :=
  let positiveTickBoundary := MaxTickInTickarrayBitmap tickSpacing
  let negativeTickBoundary := -positiveTickBoundary
  if MaxTick ≤ positiveTickBoundary then
    .error ("extensionTickBoundary check error: " ++ toString MaxTick ++ ", " ++
      toString positiveTickBoundary)
  else if negativeTickBoundary ≤ MinTick then
    .error ("extensionTickBoundary check error: " ++ toString negativeTickBoundary ++ ", " ++
      toString MinTick)
  else .ok (positiveTickBoundary, negativeTickBoundary)

/-- Go `checkExtensionBoundary` (`pkg/pool/raydium/ammPool.go`, lines
922-933).  The source binds `ExtensionTickBoundary`'s first (positive)
return value to a variable named `NegativeTickBoundary` and its second
(negative) value to `PositiveTickBoundary`, so the range test compares
against the swapped pair and can never fire; embedded exactly as written. -/
def checkExtensionBoundary (tickIndex tickSpacing : Int) : Except String Unit :=
  match ExtensionTickBoundary tickSpacing with
  | .error e => .error e
  | .ok r =>
    let NegativeTickBoundary := r.1
    let PositiveTickBoundary := r.2
    if NegativeTickBoundary ≤ tickIndex ∧ tickIndex < PositiveTickBoundary then
      .error "checkExtensionBoundary -> InvalidTickArrayBoundary"
    else .ok ()

/-- Go `GetBitmapOffset` (`pkg/pool/raydium/ammPool.go`, lines 902-919). -/
def GetBitmapOffset (tickIndex tickSpacing : Int) : Except String Int :=
  if ¬ checkIsValidStartIndex tickIndex tickSpacing then
    .error "no enough initialized tickArray"
  else
    match checkExtensionBoundary tickIndex tickSpacing with
    | .error e => .error e
    | .ok _ =>
      let ticksInOneBitmap := MaxTickInTickarrayBitmap tickSpacing
      let offset := (goAbs tickIndex).tdiv ticksInOneBitmap - 1
      let offset :=
        if tickIndex < 0 ∧ (goAbs tickIndex).tmod ticksInOneBitmap = 0 then offset - 1
        else offset
      .ok offset

/-- Go `GetBitmap` (`pkg/pool/raydium/ammPool.go`, lines 888-899); the
source indexes the extension slice without a bounds check, so an
out-of-range offset is a runtime panic, surfaced here as an error. -/
def GetBitmap (tickIndex tickSpacing : Int) (ext : TickArrayBitmapExtensionType) :
    Except String (Int × List Nat) :=
  match GetBitmapOffset tickIndex tickSpacing with
  | .error e => .error e
  | .ok offset =>
    let side :=
      if tickIndex < 0 then ext.NegativeTickArrayBitmap else ext.PositiveTickArrayBitmap
    match (if offset < 0 then none else side.get? offset.toNat) with
    | none => .error "panic: index out of range"
    | some bm => .ok (offset, bm)

/-- Go `nextInitializedTickArrayStartIndex` (`pkg/pool/raydium/ammPool.go`,
lines 1037-1087): search the merged internal 1024-bit bitmap one array step
away from `lastTickArrayStartIndex`.  The source's float division computing
`compressed` is exact (its numerator is always a multiple of `multiplier`
once the start-index validity panic has been passed); the panic is surfaced
as an error. -/
def nextInitializedTickArrayStartIndex (bitMap : Nat)
    (lastTickArrayStartIndex tickSpacing : Int) (zeroForOne : Bool) :
    Except String (Bool × Int) :=
  if ¬ checkIsValidStartIndex lastTickArrayStartIndex tickSpacing then
    .error "panic: invalid start index"
  else
    let tickBoundary := maxTickInTickarrayBitmap tickSpacing
    let nextTickArrayStartIndex :=
      if zeroForOne then lastTickArrayStartIndex - getTickCount tickSpacing
      else lastTickArrayStartIndex + getTickCount tickSpacing
    if nextTickArrayStartIndex < -tickBoundary ∨ tickBoundary ≤ nextTickArrayStartIndex then
      .ok (false, lastTickArrayStartIndex)
    else
      let multiplier := tickSpacing * TICK_ARRAY_SIZE
      let compressed := nextTickArrayStartIndex.tdiv multiplier + 512
      let compressed :=
        if nextTickArrayStartIndex < 0 ∧ nextTickArrayStartIndex.tmod multiplier ≠ 0 then
          compressed - 1
        else compressed
      let bitPos := compressed.natAbs
      if zeroForOne then
        let offsetBitMap := bitMap <<< (1024 - bitPos - 1)
        match MostSignificantBit 1024 offsetBitMap with
        | some nextBit => .ok (true, ((bitPos : Int) - (nextBit : Int) - 512) * multiplier)
        | none => .ok (false, -tickBoundary)
      else
        let offsetBitMap := bitMap >>> bitPos
        match LeastSignificantBit 1024 offsetBitMap with
        | some nextBit => .ok (true, ((bitPos : Int) + (nextBit : Int) - 512) * multiplier)
        | none => .ok (false, tickBoundary - getTickCount tickSpacing)

/-- Go `nextInitializedTickArrayFromOneBitmap` (`pkg/pool/raydium/ammPool.go`,
lines 986-1034): search one extension bitmap block.  The Go `LeadingZeros` /
`TrailingZeros` helpers never return `nil`, so the two `if` pairs collapse to
a test on `IsZero` (the trailing `out of range` return is dead code); the
huge-shift runtime panic on a negative shift amount is surfaced as an
error. -/
def nextInitializedTickArrayFromOneBitmap (lastTickArrayStartIndex tickSpacing : Int)
    (zeroForOne : Bool) (ext : TickArrayBitmapExtensionType) :
    Except String (Bool × Int) :=
  let multiplier := getTickCount tickSpacing
  let nextTickArrayStartIndex :=
    if zeroForOne then lastTickArrayStartIndex - multiplier
    else lastTickArrayStartIndex + multiplier
  match GetBitmap nextTickArrayStartIndex tickSpacing ext with
  | .error e => .error e
  | .ok r =>
    let tickarrayBitmap := r.2
    let bounds := GetBitmapTickBoundary nextTickArrayStartIndex tickSpacing
    let bitmapMinTickBoundary := bounds.1
    let bitmapMaxTickBoundary := bounds.2
    let tickArrayOffsetInBitmap := TickArrayOffsetInBitmap nextTickArrayStartIndex tickSpacing
    if zeroForOne then
      let shift := TICK_ARRAY_BITMAP_SIZE - 1 - tickArrayOffsetInBitmap
      if shift < 0 then .error "panic: shift out of range"
      else
        let offsetBitMap := MergeTickArrayBitmap tickarrayBitmap <<< shift.toNat
        if IsZero 512 offsetBitMap then .ok (false, bitmapMinTickBoundary)
        else
          let nextBit := LeadingZeros 512 offsetBitMap
          .ok (true, nextTickArrayStartIndex - (nextBit : Int) * getTickCount tickSpacing)
    else
      if tickArrayOffsetInBitmap < 0 then .error "panic: shift out of range"
      else
        let offsetBitMap := MergeTickArrayBitmap tickarrayBitmap >>> tickArrayOffsetInBitmap.toNat
        if ¬ IsZero 512 offsetBitMap then
          let nextBit := TrailingZeros 512 offsetBitMap
          .ok (true, nextTickArrayStartIndex + (nextBit : Int) * getTickCount tickSpacing)
        else .ok (false, bitmapMaxTickBoundary - getTickCount tickSpacing)

/-- The unbounded `for` loop of Go `nextInitializedTickArrayStartIndexUtils`
(`pkg/pool/raydium/ammPool.go`, lines 950-984), with an explicit step budget
(the walk crosses at most the internal bitmap plus the 14 extension blocks
per side before the `MIN_TICK`/`MAX_TICK` range check throws, so any budget
of a few dozen is past every terminating run of the source). -/
def nextInitializedTickArrayStartIndexLoop (exTickArrayBitmap : TickArrayBitmapExtensionType)
    (tickSpacing : Int) (tickArrayBitmap : List Nat) (zeroForOne : Bool) :
    Nat → Int → Except String (Bool × Int)
  | 0, _ => .error "fuel exhausted"
  | fuel + 1, lastTickArrayStartIndex =>
    match nextInitializedTickArrayStartIndex (MergeTickArrayBitmap tickArrayBitmap)
        lastTickArrayStartIndex tickSpacing zeroForOne with
    | .error e => .error e
    | .ok (startIsInit, startIndex) =>
      if startIsInit then .ok (true, startIndex)
      else
        match nextInitializedTickArrayFromOneBitmap startIndex tickSpacing zeroForOne
            exTickArrayBitmap with
        | .error e => .error e
        | .ok (isInit, tickIndex) =>
          if isInit then .ok (true, tickIndex)
          else if tickIndex < MinTick ∨ MaxTick < tickIndex then
            .error "error: out of range"
          else
            nextInitializedTickArrayStartIndexLoop exTickArrayBitmap tickSpacing
              tickArrayBitmap zeroForOne fuel tickIndex

/-- Go `nextInitializedTickArrayStartIndexUtils` (`pkg/pool/raydium/ammPool.go`,
lines 950-984). -/
def nextInitializedTickArrayStartIndexUtils (fuel : Nat)
    (exTickArrayBitmap : TickArrayBitmapExtensionType) (tickCurrent tickSpacing : Int)
    (tickArrayBitmap : List Nat) (zeroForOne : Bool) : Except String (Bool × Int) :=
  nextInitializedTickArrayStartIndexLoop exTickArrayBitmap tickSpacing tickArrayBitmap
    zeroForOne fuel (GetArrayStartIndex tickCurrent tickSpacing)

/-- Go `TickState` (`pkg/pool/raydium/ammPool.go`, lines 535-544), reduced
to the three fields the swap computation reads. -/
structure TickState where
  Tick : Int
  LiquidityNet : Int
  LiquidityGross : Int
  deriving DecidableEq

/-- Go `TickArray` (`pkg/pool/raydium/ammPool.go`, lines 526-533), reduced
to the fields the swap computation reads. -/
structure TickArray where
  StartTickIndex : Int
  Ticks : List TickState
  deriving DecidableEq

/-- Go map lookup `pool.TickArrayCache[strconv.FormatInt(idx, 10)]`: the
cache is keyed here by the start index itself (the decimal rendering is
injective); a miss yields Go's zero-value `TickArray`. -/
def lookupTickArray (cache : List (Int × TickArray)) (idx : Int) : TickArray :=
  (cache.lookup idx).getD ⟨0, []⟩

/-- The downward tick scan of Go `getNextInitTick`
(`pkg/pool/raydium/ammPool.go`, lines 1260-1265); indexing past the slice is
a Go panic, surfaced as an error.  The budget of 64 covers every offset the
guard admits for a layout-conforming 60-entry array. -/
def scanTicksDown (ticks : List TickState) : Nat → Int → Except String (Option TickState)
  | 0, _ => .error "fuel exhausted"
  | fuel + 1, off =>
    if off < 0 then .ok none
    else
      match ticks.get? off.toNat with
      | none => .error "panic: index out of range"
      | some ts0 =>
        if 0 < ts0.LiquidityGross then .ok (some ts0)
        else scanTicksDown ticks fuel (off - 1)

/-- The upward tick scan of Go `getNextInitTick`
(`pkg/pool/raydium/ammPool.go`, lines 1266-1276). -/
def scanTicksUp (ticks : List TickState) : Nat → Int → Except String (Option TickState)
  | 0, _ => .error "fuel exhausted"
  | fuel + 1, off =>
    if TICK_ARRAY_SIZE ≤ off then .ok none
    else if off < 0 then .error "panic: index out of range"
    else
      match ticks.get? off.toNat with
      | none => .error "panic: index out of range"
      | some ts0 =>
        if 0 < ts0.LiquidityGross then .ok (some ts0)
        else scanTicksUp ticks fuel (off + 1)

/-- Go `getNextInitTick` (`pkg/pool/raydium/ammPool.go`, lines 1246-1278). -/
def getNextInitTick (tickArrayCurrent : TickArray) (currentTickIndex tickSpacing : Int)
    (zeroForOne t : Bool) : Except String (Option TickState) :=
  if GetArrayStartIndex currentTickIndex tickSpacing ≠ tickArrayCurrent.StartTickIndex then
    .ok none
  else
    let offsetInArray := (currentTickIndex - tickArrayCurrent.StartTickIndex).tdiv tickSpacing
    if zeroForOne then scanTicksDown tickArrayCurrent.Ticks 64 offsetInArray
    else scanTicksUp tickArrayCurrent.Ticks 64 (if t then offsetInArray else offsetInArray + 1)

/-- Go `firstInitializedTick` (`pkg/pool/raydium/ammPool.go`, lines
1217-1244): first tick with positive gross liquidity, scanning from the top
for `zeroForOne` and from the bottom otherwise (the source skips indices
beyond the slice length, which is the scan over `take 60`). -/
def firstInitializedTick (tickArrayCurrent : TickArray) (zeroForOne : Bool) :
    Except String TickState :=
  if tickArrayCurrent.Ticks = [] then .error "invalid tick array"
  else
    let scan :=
      if zeroForOne then (tickArrayCurrent.Ticks.take 60).reverse
      else tickArrayCurrent.Ticks.take 60
    match scan.find? (fun ts0 => decide (0 < ts0.LiquidityGross)) with
    | some ts0 => .ok ts0
    | none => .error "firstInitializedTick check error: no initialized tick found"

/-- Surface an `Option` produced by a zero-denominator-guarded helper as the
Go runtime failure its caller would hit (`nil` cosmath value or an explicit
panic). -/
def liftOpt {α : Type} (o : Option α) (msg : String) : Except String α :=
  match o with
  | none => .error msg
  | some a => .ok a

/-- Go `getTokenAmountAFromLiquidity` (`pkg/pool/raydium/ammPool.go`, lines
1763-1800); the `sqrtPriceX64A must be greater than 0` panic is surfaced as
an error, and `.Quo` is truncated division. -/
def getTokenAmountAFromLiquidity (sqrtPriceX64A sqrtPriceX64B liquidity : Int)
    (roundUp : Bool) : Except String Int :=
  let priceA := if sqrtPriceX64B < sqrtPriceX64A then sqrtPriceX64B else sqrtPriceX64A
  let priceB := if sqrtPriceX64B < sqrtPriceX64A then sqrtPriceX64A else sqrtPriceX64B
  if priceA ≤ 0 then .error "panic: sqrtPriceX64A must be greater than 0"
  else
    let numerator1 := liquidity * 2 ^ U64Resolution
    let numerator2 := priceB - priceA
    if roundUp then
      match mulDivCeil numerator1 numerator2 priceB with
      | none => .error "panic: nil cosmath.Int"
      | some temp => liftOpt (mulDivCeil temp 1 priceA) "panic: nil cosmath.Int"
    else
      match mulDivFloor numerator1 numerator2 priceB with
      | none => .error "panic: division by zero"
      | some temp => .ok (temp.tdiv priceA)

/-- Go `getTokenAmountBFromLiquidity` (`pkg/pool/raydium/ammPool.go`, lines
1803-1831). -/
def getTokenAmountBFromLiquidity (sqrtPriceX64A sqrtPriceX64B liquidity : Int)
    (roundUp : Bool) : Except String Int :=
  let priceA := if sqrtPriceX64B < sqrtPriceX64A then sqrtPriceX64B else sqrtPriceX64A
  let priceB := if sqrtPriceX64B < sqrtPriceX64A then sqrtPriceX64A else sqrtPriceX64B
  if priceA ≤ 0 then .error "panic: sqrtPriceX64A must be greater than 0"
  else
    let priceDiff := priceB - priceA
    if roundUp then
      liftOpt (mulDivCeil liquidity priceDiff (2 ^ U64Resolution)) "panic: nil cosmath.Int"
    else
      liftOpt (mulDivFloor liquidity priceDiff (2 ^ U64Resolution)) "panic: division by zero"

/-- Go `getNextSqrtPriceFromTokenAmountARoundingUp`
(`pkg/pool/raydium/ammPool.go`, lines 1889-1920); `big.Int.Div` is Euclidean
division, and dividing by zero inside `mulDivRoundingUp` is a Go panic,
surfaced as an error. -/
def getNextSqrtPriceFromTokenAmountARoundingUp (sqrtPriceX64 liquidity amount : Int)
    (add : Bool) : Except String Int :=
  if amount = 0 then .ok sqrtPriceX64
  else
    let liquidityLeftShift := liquidity * 2 ^ U64Resolution
    if add then
      let numerator1 := liquidityLeftShift
      let denominator := liquidityLeftShift + amount * sqrtPriceX64
      if numerator1 ≤ denominator then
        liftOpt (mulDivCeil numerator1 sqrtPriceX64 denominator) "panic: nil cosmath.Int"
      else
        if sqrtPriceX64 = 0 then .error "panic: division by zero"
        else
          let temp := numerator1.ediv sqrtPriceX64 + amount
          if temp = 0 then .error "panic: division by zero"
          else .ok (mulDivRoundingUp numerator1 1 temp)
    else
      let amountMulSqrtPrice := amount * sqrtPriceX64
      if liquidityLeftShift ≤ amountMulSqrtPrice then
        .error "panic: getNextSqrtPriceFromTokenAmountARoundingUp: liquidityLeftShift must be greater than amountMulSqrtPrice"
      else
        liftOpt (mulDivCeil liquidityLeftShift sqrtPriceX64
          (liquidityLeftShift - amountMulSqrtPrice)) "panic: nil cosmath.Int"

/-- Go `getNextSqrtPriceFromTokenAmountBRoundingDown`
(`pkg/pool/raydium/ammPool.go`, lines 1923-1940). -/
def getNextSqrtPriceFromTokenAmountBRoundingDown (sqrtPriceX64 liquidity amount : Int)
    (add : Bool) : Except String Int :=
  let deltaY := amount * 2 ^ U64Resolution
  if liquidity = 0 then .error "panic: division by zero"
  else if add then .ok (sqrtPriceX64 + deltaY.ediv liquidity)
  else
    let amountDivLiquidity := mulDivRoundingUp deltaY 1 liquidity
    if sqrtPriceX64 ≤ amountDivLiquidity then
      .error "panic: getNextSqrtPriceFromTokenAmountBRoundingDown: sqrtPriceX64 must be greater than amountDivLiquidity"
    else .ok (sqrtPriceX64 - amountDivLiquidity)

/-- Go `getNextSqrtPriceX64FromInput` (`pkg/pool/raydium/ammPool.go`, lines
1843-1866); its panics are surfaced as errors. -/
def getNextSqrtPriceX64FromInput (sqrtPriceX64Current liquidity amount : Int)
    (zeroForOne : Bool) : Except String Int :=
  if sqrtPriceX64Current ≤ 0 then .error "panic: sqrtPriceX64Current must be greater than 0"
  else if liquidity ≤ 0 then .error "panic: liquidity must be greater than 0"
  else if amount = 0 then .ok sqrtPriceX64Current
  else if zeroForOne then
    getNextSqrtPriceFromTokenAmountARoundingUp sqrtPriceX64Current liquidity amount true
  else
    getNextSqrtPriceFromTokenAmountBRoundingDown sqrtPriceX64Current liquidity amount true

/-- Go `getNextSqrtPriceX64FromOutput` (`pkg/pool/raydium/ammPool.go`, lines
1869-1887). -/
def getNextSqrtPriceX64FromOutput (sqrtPriceX64Current liquidity amount : Int)
    (zeroForOne : Bool) : Except String Int :=
  if sqrtPriceX64Current ≤ 0 then .error "panic: sqrtPriceX64Current must be greater than 0"
  else if liquidity ≤ 0 then .error "panic: liquidity must be greater than 0"
  else if zeroForOne then
    getNextSqrtPriceFromTokenAmountBRoundingDown sqrtPriceX64Current liquidity amount false
  else
    getNextSqrtPriceFromTokenAmountARoundingUp sqrtPriceX64Current liquidity amount false

/-- Go `swapStepCompute` (`pkg/pool/raydium/ammPool.go`, lines 1624-1747):
one concentrated-liquidity step, returning
`(sqrtPriceX64Next, amountIn, amountOut, feeAmount)`. -/
def swapStepCompute (sqrtPriceX64Current sqrtPriceX64Target liquidity amountRemaining : Int)
    (feeRate : Int) (zeroForOne : Bool) : Except String (Int × Int × Int × Int) := do
  let baseInput := 0 ≤ amountRemaining
  let stage1 ←
    if baseInput then do
      let amountRemainingSubtractFee ←
        liftOpt (mulDivFloor amountRemaining (FEE_RATE_DENOMINATOR - feeRate)
          FEE_RATE_DENOMINATOR) "panic: division by zero"
      let amountIn ←
        if zeroForOne then
          getTokenAmountAFromLiquidity sqrtPriceX64Target sqrtPriceX64Current liquidity true
        else
          getTokenAmountBFromLiquidity sqrtPriceX64Current sqrtPriceX64Target liquidity true
      let next ←
        if amountIn ≤ amountRemainingSubtractFee then pure sqrtPriceX64Target
        else
          getNextSqrtPriceX64FromInput sqrtPriceX64Current liquidity
            amountRemainingSubtractFee zeroForOne
      pure (next, amountIn, 0)
    else do
      let amountOut ←
        if zeroForOne then
          getTokenAmountBFromLiquidity sqrtPriceX64Target sqrtPriceX64Current liquidity false
        else
          getTokenAmountAFromLiquidity sqrtPriceX64Current sqrtPriceX64Target liquidity false
      let next ←
        if amountOut ≤ -amountRemaining then pure sqrtPriceX64Target
        else
          getNextSqrtPriceX64FromOutput sqrtPriceX64Current liquidity
            (-amountRemaining) zeroForOne
      pure (next, 0, amountOut)
  let sqrtPriceX64Next := stage1.1
  let reachTargetPrice := sqrtPriceX64Next = sqrtPriceX64Target
  let amountIn ←
    if zeroForOne then
      if reachTargetPrice ∧ baseInput then pure stage1.2.1
      else getTokenAmountAFromLiquidity sqrtPriceX64Next sqrtPriceX64Current liquidity true
    else
      if reachTargetPrice ∧ baseInput then pure stage1.2.1
      else getTokenAmountBFromLiquidity sqrtPriceX64Current sqrtPriceX64Next liquidity true
  let amountOut ←
    if zeroForOne then
      if reachTargetPrice ∧ ¬ baseInput then pure stage1.2.2
      else getTokenAmountBFromLiquidity sqrtPriceX64Next sqrtPriceX64Current liquidity false
    else
      if reachTargetPrice ∧ ¬ baseInput then pure stage1.2.2
      else getTokenAmountAFromLiquidity sqrtPriceX64Current sqrtPriceX64Next liquidity false
  let amountOut :=
    if ¬ baseInput ∧ -amountRemaining < amountOut then -amountRemaining else amountOut
  let feeAmount ←
    if baseInput ∧ sqrtPriceX64Next ≠ sqrtPriceX64Target then
      pure (amountRemaining - amountIn)
    else
      liftOpt (mulDivCeil amountIn feeRate (FEE_RATE_DENOMINATOR - feeRate))
        "panic: nil cosmath.Int"
  pure (sqrtPriceX64Next, amountIn, amountOut, feeAmount)

/-- The loop-invariant inputs of Go `CLMMPool.swapCompute`
(`src/unnamed/part_001`, lines 505-674): the receiver fields it reads plus
its scalar arguments. -/
structure CLMMSwapEnv where
  tickSpacing : Int
  fee : Int
  zeroForOne : Bool
  baseInput : Bool
  sqrtPriceLimitX64 : Int
  tickArrayBitmap : List Nat
  tickArrayCache : List (Int × TickArray)
  exTickArrayBitmap : TickArrayBitmapExtensionType
  deriving DecidableEq

/-- The variables of Go `swapCompute` that change across loop iterations. -/
structure SwapState where
  amountSpecifiedRemaining : Int
  amountCalculated : Int
  sqrtPriceX64 : Int
  tick : Int
  liquidity : Int
  t : Bool
  tickArrayCurrent : TickArray
  deriving DecidableEq

/-- One body of the main loop of Go `swapCompute` (`src/unnamed/part_001`,
lines 556-671).  The `accounts` bookkeeping of lines 597-600 is dead code —
line 583 declares a fresh `tickAarrayStartIndex` with `:=` inside the `if`
block, so the outer variable compared on line 597 never changes and nothing
of it reaches the returned amount — and is omitted.  The `uint32(fee.Int64())`
conversion of line 629 panics outside the `int64` range and truncates to the
low 32 bits otherwise. -/
def swapComputeBody (env : CLMMSwapEnv) (st : SwapState) : Except String SwapState := do
  let tickState ← getNextInitTick st.tickArrayCurrent st.tick env.tickSpacing
    env.zeroForOne st.t
  let cross : Except String (TickState × TickArray) := do
    let r ←
      match nextInitializedTickArrayStartIndexUtils 64 env.exTickArrayBitmap st.tick
          env.tickSpacing env.tickArrayBitmap env.zeroForOne with
      | .error e => .error ("failed to get next initialized tick array: " ++ e)
      | .ok v => pure v
    if ¬ r.1 then .error "insufficient liquidity"
    else
      let arr := lookupTickArray env.tickArrayCache r.2
      match firstInitializedTick arr env.zeroForOne with
      | .error e => .error ("failed to get first initialized tick: " ++ e)
      | .ok nit => pure (nit, arr)
  let step1 ←
    match tickState with
    | none => cross
    | some ts0 => if ts0.LiquidityGross ≤ 0 then cross else pure (ts0, st.tickArrayCurrent)
  let nextInitTick := step1.1
  let tickArrayCurrent := step1.2
  let initialized := 0 < nextInitTick.LiquidityGross
  let tickNext :=
    if nextInitTick.Tick < MinTick then MinTick
    else if MaxTick < nextInitTick.Tick then MaxTick
    else nextInitTick.Tick
  let sqrtPriceNextX64 ←
    match getSqrtPriceX64FromTick tickNext with
    | .error e => .error ("failed to get sqrt price from tick: " ++ e)
    | .ok v => pure v
  let targetPrice :=
    if (env.zeroForOne ∧ sqrtPriceNextX64 < env.sqrtPriceLimitX64) ∨
        (¬ env.zeroForOne ∧ env.sqrtPriceLimitX64 < sqrtPriceNextX64) then
      env.sqrtPriceLimitX64
    else sqrtPriceNextX64
  if ¬ (-(2 ^ 63) ≤ env.fee ∧ env.fee < 2 ^ 63) then
    .error "panic: Int64 out of range"
  else do
    let step ← swapStepCompute st.sqrtPriceX64 targetPrice st.liquidity
      st.amountSpecifiedRemaining (env.fee.emod (2 ^ 32)) env.zeroForOne
    let (sqrtPriceX64New, amountIn, amountOut, feeAmount) := step
    let amountSpecifiedRemaining :=
      if env.baseInput then st.amountSpecifiedRemaining - (amountIn + feeAmount)
      else st.amountSpecifiedRemaining + amountOut
    let amountCalculated :=
      if env.baseInput then st.amountCalculated - amountOut
      else st.amountCalculated + (amountIn + feeAmount)
    if sqrtPriceX64New = sqrtPriceNextX64 then
      let liquidity :=
        if initialized then
          let liquidityNet :=
            if env.zeroForOne then wrapI64 (-nextInitTick.LiquidityNet)
            else nextInitTick.LiquidityNet
          st.liquidity + liquidityNet
        else st.liquidity
      let t := decide (tickNext ≠ st.tick) && !env.zeroForOne &&
        decide (tickArrayCurrent.StartTickIndex = tickNext)
      let tick := if env.zeroForOne then tickNext - 1 else tickNext
      pure { amountSpecifiedRemaining := amountSpecifiedRemaining,
             amountCalculated := amountCalculated, sqrtPriceX64 := sqrtPriceX64New,
             tick := tick, liquidity := liquidity, t := t,
             tickArrayCurrent := tickArrayCurrent }
    else if sqrtPriceX64New ≠ st.sqrtPriceX64 then do
      let tickFromPrice ←
        match getTickFromSqrtPriceX64 sqrtPriceX64New with
        | .error e => .error ("failed to get tick from sqrt price: " ++ e)
        | .ok v => pure v
      let t := decide (tickFromPrice ≠ st.tick) && !env.zeroForOne &&
        decide (tickArrayCurrent.StartTickIndex = tickFromPrice)
      pure { amountSpecifiedRemaining := amountSpecifiedRemaining,
             amountCalculated := amountCalculated, sqrtPriceX64 := sqrtPriceX64New,
             tick := tickFromPrice, liquidity := st.liquidity, t := t,
             tickArrayCurrent := tickArrayCurrent }
    else
      pure { amountSpecifiedRemaining := amountSpecifiedRemaining,
             amountCalculated := amountCalculated, sqrtPriceX64 := sqrtPriceX64New,
             tick := st.tick, liquidity := st.liquidity, t := st.t,
             tickArrayCurrent := tickArrayCurrent }

/-- The main loop of Go `swapCompute` (`src/unnamed/part_001`, lines
554-671): break when the remaining amount is zero or the price limit is hit;
after each body the `loop` counter is incremented and the run aborts with
`swap computation exceeded maximum iterations` once it exceeds 100.  The
first argument is the embedding's recursion budget; the source's own counter
guard settles every run before any budget of at least `101 - loop` is
consumed, which the C4 theorem proves. -/
def swapComputeLoop (env : CLMMSwapEnv) : Nat → Nat → SwapState → Except String Int
  | 0, _, _ => .error "fuel exhausted"
  | fuel + 1, loop, st =>
    if st.amountSpecifiedRemaining = 0 ∨ st.sqrtPriceX64 = env.sqrtPriceLimitX64 then
      .ok st.amountCalculated
    else
      match swapComputeBody env st with
      | .error e => .error e
      | .ok st' =>
        if 100 < loop + 1 then .error "swap computation exceeded maximum iterations"
        else swapComputeLoop env fuel (loop + 1) st'

/-- The receiver fields of Go `CLMMPool` that `swapCompute` reads
(`src/unnamed/part_001`, lines 505-674). -/
structure CLMMPool where
  TickSpacing : Int
  SqrtPriceX64 : Int
  Liquidity : Int
  TickArrayBitmap : List Nat
  TickArrayCache : List (Int × TickArray)
  deriving DecidableEq

/-- Go `CLMMPool.swapCompute` (`src/unnamed/part_001`, lines 505-674). -/
def swapCompute (pool : CLMMPool) (currentTick : Int) (zeroForOne : Bool)
    (amountSpecified fee lastSavedTickArrayStartIndex : Int)
    (exTickArrayBitmap : TickArrayBitmapExtensionType) : Except String Int :=
  if amountSpecified = 0 then .error "input amount cannot be zero"
  else
    let baseInput := 0 < amountSpecified
    let tick :=
      if lastSavedTickArrayStartIndex < currentTick then
        if lastSavedTickArrayStartIndex + getTickCount pool.TickSpacing - 1 < currentTick then
          lastSavedTickArrayStartIndex + getTickCount pool.TickSpacing - 1
        else currentTick
      else lastSavedTickArrayStartIndex
    let tickArrayCurrent := lookupTickArray pool.TickArrayCache lastSavedTickArrayStartIndex
    let sqrtPriceLimitX64 :=
      if baseInput then MinSqrtPriceX64 + 1 else MaxSqrtPriceX64 - 1
    let t := !zeroForOne && decide (tickArrayCurrent.StartTickIndex = tick)
    let env : CLMMSwapEnv :=
      { tickSpacing := pool.TickSpacing, fee := fee, zeroForOne := zeroForOne,
        baseInput := baseInput, sqrtPriceLimitX64 := sqrtPriceLimitX64,
        tickArrayBitmap := pool.TickArrayBitmap, tickArrayCache := pool.TickArrayCache,
        exTickArrayBitmap := exTickArrayBitmap }
    swapComputeLoop env 102 0
      { amountSpecifiedRemaining := amountSpecified, amountCalculated := 0,
        sqrtPriceX64 := pool.SqrtPriceX64, tick := tick, liquidity := pool.Liquidity,
        t := t, tickArrayCurrent := tickArrayCurrent }

lemma nextInitializedTickArrayStartIndexLoop_ok_true
    (ext : TickArrayBitmapExtensionType) (ts : Int) (bm : List Nat) (z : Bool) :
    ∀ (fuel : Nat) (last : Int) (p : Bool × Int),
      nextInitializedTickArrayStartIndexLoop ext ts bm z fuel last = .ok p →
      p.1 = true := by
  intro fuel
  induction fuel with
  | zero =>
    intro last p h
    simp [nextInitializedTickArrayStartIndexLoop] at h
  | succ fuel ih =>
    intro last p h
    simp only [nextInitializedTickArrayStartIndexLoop] at h
    split at h
    · exact absurd h (by simp)
    · split at h
      · simp only [Except.ok.injEq] at h
        subst h
        rfl
      · split at h
        · exact absurd h (by simp)
        · split at h
          · simp only [Except.ok.injEq] at h
            subst h
            rfl
          · split at h
            · exact absurd h (by simp)
            · exact ih _ _ h

lemma swapComputeLoop_fuel_irrelevant (env : CLMMSwapEnv) :
    ∀ (fuel : Nat) (lc : Nat) (st : SwapState) (fuel' : Nat),
      101 - lc ≤ fuel → 0 < fuel → 101 - lc ≤ fuel' → 0 < fuel' →
      swapComputeLoop env fuel lc st = swapComputeLoop env fuel' lc st := by
  intro fuel
  induction fuel with
  | zero =>
    intro lc st fuel' h1 h2 h3 h4
    exact absurd h2 (by simp)
  | succ fuel ih =>
    intro lc st fuel' h1 h2 h3 h4
    match fuel', h3, h4 with
    | fuel' + 1, h3, h4 =>
      simp only [swapComputeLoop]
      split
      · rfl
      · split
        · rfl
        · split
          · rfl
          · rename_i hguard
            exact ih (lc + 1) _ fuel' (by omega) (by omega) (by omega) (by omega)

/-- A zeroed bitmap extension: 14 blocks of 8 zero limbs per side. -/
def extZero : TickArrayBitmapExtensionType :=
  { PositiveTickArrayBitmap := List.replicate 14 (List.replicate 8 0),
    NegativeTickArrayBitmap := List.replicate 14 (List.replicate 8 0) }

/-- A CLMM pool snapshot with zero liquidity: no initialized tick arrays
anywhere (internal bitmap and extension all zero, empty cache). -/
def zeroLiqPool : CLMMPool :=
  { TickSpacing := 1, SqrtPriceX64 := 2 ^ 64, Liquidity := 0,
    TickArrayBitmap := List.replicate 16 0, TickArrayCache := [] }

/-- C4: the bin-walk loop of `swapCompute` is indeed cut off by its own
100-iteration counter — its outcome is the same under every recursion budget
past the counter bound, so every run settles within the bound (second
conjunct) — but the insufficient-liquidity half of the claim fails:
`nextInitializedTickArrayStartIndexUtils` returns on every path either an
initialized index with `isExist = true` or an error, never `(false, _)`
(first conjunct), so the `insufficient liquidity` return of `swapCompute` is
dead code, and on a pool with zero liquidity the swap fails with
`failed to get next initialized tick array: error: out of range` instead of
the claimed `InsufficientLiquidity` (third conjunct). -/
theorem c4_iteration_bound_but_insufficient_liquidity_dead :
    (∀ (fuel : Nat) (ext : TickArrayBitmapExtensionType) (tc ts : Int)
        (bm : List Nat) (z : Bool) (p : Bool × Int),
        nextInitializedTickArrayStartIndexUtils fuel ext tc ts bm z = .ok p →
        p.1 = true) ∧
    (∀ (env : CLMMSwapEnv) (fuel lc : Nat) (st : SwapState) (fuel' : Nat),
        101 - lc ≤ fuel → 0 < fuel → 101 - lc ≤ fuel' → 0 < fuel' →
        swapComputeLoop env fuel lc st = swapComputeLoop env fuel' lc st) ∧
    swapCompute zeroLiqPool (-500) true 1000000 2500 (-540) extZero =
      .error "failed to get next initialized tick array: error: out of range" :=
  ⟨fun fuel ext tc ts bm z p h =>
    nextInitializedTickArrayStartIndexLoop_ok_true ext ts bm z fuel _ p h,
   fun env fuel lc st fuel' h1 h2 h3 h4 =>
    swapComputeLoop_fuel_irrelevant env fuel lc st fuel' h1 h2 h3 h4,
   by decide⟩

/-- A bitmap whose only set bit marks tick-array index −1 (bit 511 of the
merged 1024-bit word). -/
def bmOne : List Nat :=
  [0, 0, 0, 0, 0, 0, 0, 2 ^ 63, 0, 0, 0, 0, 0, 0, 0, 0]

/-- Loop-application environment for the C4 witness. -/
def envW : CLMMSwapEnv :=
  { tickSpacing := 1, fee := 2500, zeroForOne := true, baseInput := true,
    sqrtPriceLimitX64 := MinSqrtPriceX64 + 1,
    tickArrayBitmap := List.replicate 16 0, tickArrayCache := [],
    exTickArrayBitmap := extZero }

/-- Loop-application state for the C4 witness (remaining amount zero, so the
loop breaks at once). -/
def stW : SwapState :=
  { amountSpecifiedRemaining := 0, amountCalculated := 0, sqrtPriceX64 := 2 ^ 64,
    tick := 0, liquidity := 0, t := false,
    tickArrayCurrent := { StartTickIndex := 0, Ticks := [] } }

theorem c4_iteration_bound_but_insufficient_liquidity_dead_witness :
    ((true, (-60 : Int)) : Bool × Int).1 = true ∧
    swapComputeLoop envW 102 0 stW = swapComputeLoop envW 200 0 stW :=
  ⟨c4_iteration_bound_but_insufficient_liquidity_dead.1 64 extZero 0 1 bmOne true
      (true, -60) (by decide),
   c4_iteration_bound_but_insufficient_liquidity_dead.2.1 envW 102 0 stW 200
      (by decide) (by decide) (by decide) (by decide)⟩

/- ### Claim C2 theorem -/

/-- C2: the sqrt-price/tick round-trip fails at `t = MAX_TICK = 443636`:
`getSqrtPriceX64FromTick 443636` succeeds with 79226673521066979257578248091,
but that value is larger than the coded `MaxSqrtPriceX64` constant, so
`getTickFromSqrtPriceX64` rejects it instead of returning 443636.  (The
round-trip does hold at the neighbouring tick 443635 and at `MIN_TICK`.) -/
theorem c2_roundtrip_fails_at_max_tick :
    getSqrtPriceX64FromTick 443636 = .ok 79226673521066979257578248091 ∧
    MaxSqrtPriceX64 < 79226673521066979257578248091 ∧
    (getSqrtPriceX64FromTick 443636).bind getTickFromSqrtPriceX64 =
      .error "provided sqrtPrice is not within the supported sqrtPrice range" ∧
    (getSqrtPriceX64FromTick 443636).bind getTickFromSqrtPriceX64 ≠ .ok 443636 ∧
    (getSqrtPriceX64FromTick 443635).bind getTickFromSqrtPriceX64 = .ok 443635 ∧
    (getSqrtPriceX64FromTick (-443636)).bind getTickFromSqrtPriceX64 = .ok (-443636) := by
  exact ⟨by decide, by decide, by decide, by decide, by decide, by decide⟩

/- ### Claim C1 theorems -/

lemma fee_floor_le (x : Int) (hx : 0 < x) : (x * 25).ediv 10000 ≤ x := by
  have h := Int.ediv_le_ediv (show (0 : Int) < 10000 by norm_num)
    (show x * 25 ≤ x * 10000 by nlinarith)
  simpa [Int.mul_ediv_cancel x (show (10000 : Int) ≠ 0 by norm_num)] using h

lemma fee_floor_nonneg (x : Int) (hx : 0 < x) : 0 ≤ (x * 25).ediv 10000 :=
  Int.ediv_nonneg (by nlinarith) (by norm_num)

/-- C1 counterexample: on the spec's own example snapshot (reserves
1_000_000_000 / 2_000_000_000, input 1_000_000) the AMM-v4 quote is 1_993_011,
not the 1_992_007 the claim states, and the PumpAMM quote does not satisfy the
claimed floor formula at all (it rounds the output up, giving 1_993_012). -/
theorem c1_counterexample :
    ammQuoteCore 1000000000 2000000000 1000000 = 1993011 ∧
    (1993011 : Int) ≠ 1992007 ∧
    specConstantProductOut 1000000000 2000000000 1000000 = 1993011 ∧
    pumpQuoteCore 1000000000 2000000000 1000000 true = 1993012 ∧
    pumpQuoteCore 1000000000 2000000000 1000000 true ≠
      specConstantProductOut 1000000000 2000000000 1000000 := by
  refine ⟨by decide, by decide, by decide, by decide, by decide⟩

/-- C1 (amended): for positive effective reserves and a positive input amount
(within the 256-bit domain of `cosmath.Int`), the AMM-v4 and CPMM quotes equal
`floor(reserve_out * (x - floor(x*25/10000)) / (reserve_in + (x - floor(x*25/10000))))`
exactly — on the example snapshot this is 1_993_011, not 1_992_007 — while the
PumpAMM quote instead equals
`reserve_out - floor(reserve_in * reserve_out / (reserve_in + floor(x*997500000/10^9)))`,
i.e. it rounds the output up rather than down. -/
theorem c1_amended (rin rout x : Int)
    (hrin : 0 < rin) (hrin2 : rin < 2 ^ 128)
    (hrout : 0 ≤ rout) (hrout2 : rout < 2 ^ 128)
    (hx : 0 < x) (hx2 : x < 2 ^ 64) :
    ammQuoteCore rin rout x = specConstantProductOut rin rout x ∧
    cpmmQuoteCore rin rout x = specConstantProductOut rin rout x ∧
    pumpQuoteCore rin rout x true =
      rout - (rin * rout).fdiv (rin + (x * pumpFeeMultiplier).fdiv BaseDecimalInt) := by
  have hxne : ¬ (x = 0) := by omega
  have hfee_nonneg := fee_floor_nonneg x hx
  have hfee_le := fee_floor_le x hx
  have hnet_nonneg : 0 ≤ x - (x * 25).ediv 10000 := by omega
  have hden_pos : 0 < rin + (x - (x * 25).ediv 10000) := by omega
  have hfee_t : (x * 25).tdiv 10000 = (x * 25).ediv 10000 :=
    Int.tdiv_eq_ediv (by nlinarith) (by norm_num)
  have hfee_f : (x * 25).fdiv 10000 = (x * 25).ediv 10000 :=
    Int.fdiv_eq_ediv _ (by norm_num)
  have hmain :
      ∀ a b : Int, 0 ≤ a → 0 < b → a.tdiv b = a.fdiv b := by
    intro a b ha hb
    rw [Int.tdiv_eq_ediv ha hb.le, Int.fdiv_eq_ediv a hb.le]
  have hcore :
      (rout * (x - (x * 25).tdiv 10000)).tdiv (rin + (x - (x * 25).tdiv 10000)) =
      (rout * (x - (x * 25).fdiv 10000)).fdiv (rin + (x - (x * 25).fdiv 10000)) := by
    rw [hfee_t, hfee_f]
    exact hmain _ _ (by nlinarith) (by omega)
  refine ⟨?_, ?_, ?_⟩
  · simp only [ammQuoteCore, specConstantProductOut, LIQUIDITY_FEES_NUMERATOR,
      LIQUIDITY_FEES_DENOMINATOR, hxne, if_false]
    exact hcore
  · simp only [cpmmQuoteCore, specConstantProductOut, LIQUIDITY_FEES_NUMERATOR,
      LIQUIDITY_FEES_DENOMINATOR, hxne, if_false]
    exact hcore
  · have hnetp_t : (x * pumpFeeMultiplier).tdiv BaseDecimalInt =
        (x * pumpFeeMultiplier).ediv BaseDecimalInt :=
      Int.tdiv_eq_ediv (mul_nonneg hx.le (by norm_num [pumpFeeMultiplier]))
        (by norm_num [BaseDecimalInt])
    have hnetp_f : (x * pumpFeeMultiplier).fdiv BaseDecimalInt =
        (x * pumpFeeMultiplier).ediv BaseDecimalInt :=
      Int.fdiv_eq_ediv _ (by norm_num [BaseDecimalInt])
    have hnetp_nonneg : 0 ≤ (x * pumpFeeMultiplier).ediv BaseDecimalInt :=
      Int.ediv_nonneg (mul_nonneg hx.le (by norm_num [pumpFeeMultiplier]))
        (by norm_num [BaseDecimalInt])
    have hdef : pumpQuoteCore rin rout x true =
        rout - (rin * rout).tdiv
          (rin + (x * pumpFeeMultiplier).tdiv BaseDecimalInt) := rfl
    rw [hdef, hnetp_t, hnetp_f]
    have hb_pos : 0 < rin + (x * pumpFeeMultiplier).ediv BaseDecimalInt := by omega
    rw [hmain _ _ (mul_nonneg hrin.le hrout) hb_pos]

/-- Witness for C1 (amended) at the spec's example snapshot. -/
theorem c1_amended_witness :
    ammQuoteCore 1000000000 2000000000 1000000 =
      specConstantProductOut 1000000000 2000000000 1000000 ∧
    cpmmQuoteCore 1000000000 2000000000 1000000 =
      specConstantProductOut 1000000000 2000000000 1000000 ∧
    pumpQuoteCore 1000000000 2000000000 1000000 true =
      2000000000 - (1000000000 * 2000000000 : Int).fdiv
        (1000000000 + (1000000 * pumpFeeMultiplier).fdiv BaseDecimalInt) :=
  c1_amended 1000000000 2000000000 1000000 (by decide) (by decide) (by decide)
    (by decide) (by decide) (by decide)

/- ### Claim C9 theorem -/

/-- C9: `mulDivRoundingUp` is not a ceiling division: at `a = b = 1`, `d = 2`
it returns 0 while `⌈1·1/2⌉ = 1` (its rounding test asks whether the remainder
fits in an `int64` instead of whether it is non-zero); `mulDivCeil` on the same
input does return the ceiling, 1. -/
theorem c9_mulDivRoundingUp_not_ceiling :
    mulDivRoundingUp 1 1 2 = 0 ∧ mulDivCeil 1 1 2 = some 1 ∧
    ((1 : Int) * 1 + 2 - 1).ediv 2 = 1 := by
  refine ⟨by decide, by decide, by decide⟩

end SolRoute
